import Mathlib

/-!
Verification of the body-measurement Latest/Oldest summary maintenance logic of
`src/lambda/body_measurement/handler.py` (HealthManagerMCP).

Shallow embedding notes:
* All operations act on one user partition of the DynamoDB table
  `healthmate-body-measurements`; the `userId` attribute and its presence checks
  are therefore dropped (the ownership re-check `existing_record['userId'] == user_id`
  is vacuously true inside a partition).
* Metric values are `Decimal` in the source; they are embedded as `ℚ`.
* `measurement_time` and record ids are ISO-8601 strings compared
  lexicographically (Python string comparison / DynamoDB sort-key order);
  they are embedded as `String` with code-point lexicographic order.
* The wall-clock bookkeeping attributes `created_at` / `updated_at` are omitted:
  they are write-only metadata, read by no code path.
* Exceptions raised inside the secondary (summary-maintenance) phase are caught
  by the handlers; a `fault : Bool` argument injects such a failure (the
  maintenance phase is skipped wholesale, modelling an exception raised before
  its first write).
-/

/-- The three body metrics tracked by the handler. -/
inductive Metric where
  | weight
  | height
  | body_fat_percentage
deriving DecidableEq, Repr

/-- The iteration order `['weight', 'height', 'body_fat_percentage']` used by the
handler's per-metric loops. -/
def metricKeys : List Metric := [.weight, .height, .body_fat_percentage]

/-- The `measurement_data` / `update_data` dict built by `add_body_measurement`
and `update_body_measurement`: a sparse map from metric to decimal value. -/
structure MeasData where
  weight : Option ℚ := none
  height : Option ℚ := none
  body_fat_percentage : Option ℚ := none
deriving DecidableEq, Repr

def MeasData.get (md : MeasData) : Metric → Option ℚ
  | .weight => md.weight
  | .height => md.height
  | .body_fat_percentage => md.body_fat_percentage

/-- `if not measurement_data` in the source: the dict is empty. -/
def MeasData.isEmpty (md : MeasData) : Bool :=
  md.weight.isNone && md.height.isNone && md.body_fat_percentage.isNone

/-- One DynamoDB item of the user's partition.  Regular measurement records,
the `MEASUREMENT#latest` summary and the `MEASUREMENT#oldest` summary all share
this shape (the source stores free-form dicts; absent attributes are `none`). -/
structure Item where
  measurementId : String
  record_type : Option String := none
  weight : Option ℚ := none
  height : Option ℚ := none
  body_fat_percentage : Option ℚ := none
  measurement_time : Option String := none
  last_weight_update : Option String := none
  last_height_update : Option String := none
  last_body_fat_percentage_update : Option String := none
  first_weight_record : Option String := none
  first_height_record : Option String := none
  first_body_fat_percentage_record : Option String := none
deriving DecidableEq, Repr

def Item.getVal (r : Item) : Metric → Option ℚ
  | .weight => r.weight
  | .height => r.height
  | .body_fat_percentage => r.body_fat_percentage

/-- The `last_<metric>_update` attribute (Latest summary). -/
def Item.getLast (r : Item) : Metric → Option String
  | .weight => r.last_weight_update
  | .height => r.last_height_update
  | .body_fat_percentage => r.last_body_fat_percentage_update

/-- The `first_<metric>_record` attribute (Oldest summary). -/
def Item.getFirst (r : Item) : Metric → Option String
  | .weight => r.first_weight_record
  | .height => r.first_height_record
  | .body_fat_percentage => r.first_body_fat_percentage_record

def Item.setVal (r : Item) (m : Metric) (v : ℚ) : Item :=
  match m with
  | .weight => { r with weight := some v }
  | .height => { r with height := some v }
  | .body_fat_percentage => { r with body_fat_percentage := some v }

def Item.setLast (r : Item) (m : Metric) (t : String) : Item :=
  match m with
  | .weight => { r with last_weight_update := some t }
  | .height => { r with last_height_update := some t }
  | .body_fat_percentage => { r with last_body_fat_percentage_update := some t }

def Item.setFirst (r : Item) (m : Metric) (t : String) : Item :=
  match m with
  | .weight => { r with first_weight_record := some t }
  | .height => { r with first_height_record := some t }
  | .body_fat_percentage => { r with first_body_fat_percentage_record := some t }

/-- `'measurement_type' in record` for some metric: the record carries at least
one metric value. -/
def Item.hasAnyMetric (r : Item) : Bool :=
  metricKeys.any (fun m => (r.getVal m).isSome)

/-- `x['measurement_time']` as used by the sort keys of the recomputation
functions (total by defaulting; the recomputation functions only apply it to
items whose `measurement_time` is present, see `timesOk`). -/
def timeOf (r : Item) : String := r.measurement_time.getD ""

/- Code-point lexicographic order on strings: Python string comparison and the
DynamoDB sort-key order for these ASCII ids. -/

def charListLt : List Char → List Char → Bool
  | _, [] => false
  | [], _ :: _ => true
  | a :: as, b :: bs => if a < b then true else if b < a then false else charListLt as bs

def strLt (a b : String) : Bool := charListLt a.data b.data

def strLe (a b : String) : Bool := !(strLt b a)

/-- `s.endswith(suf)`. -/
def strEndsWith (s suf : String) : Bool := suf.data.isSuffixOf s.data

/-- A non-summary sort key: `not k.endswith('#latest') and not k.endswith('#oldest')`. -/
def isRegularId (k : String) : Bool :=
  !(strEndsWith k "#latest") && !(strEndsWith k "#oldest")

/-- A regular (non-summary) record: the filter
`not id.endswith('#latest') and not id.endswith('#oldest')` used everywhere. -/
def isRegularItem (r : Item) : Bool :=
  isRegularId r.measurementId

/- The store: a user partition as a list of items, kept in ascending sort-key
order (DynamoDB stores items sorted by sort key). -/

/-- `table.put_item`: replace the item with the same key or insert at its
sort-key position. -/
def putItem : List Item → Item → List Item
  | [], it => [it]
  | x :: xs, it =>
    if x.measurementId = it.measurementId then it :: xs
    else if strLt it.measurementId x.measurementId then it :: x :: xs
    else x :: putItem xs it

/-- `table.delete_item` by key. -/
def deleteItem (t : List Item) (k : String) : List Item :=
  t.filter (fun r => r.measurementId ≠ k)

/-- `table.get_item` by key. -/
def getItem (t : List Item) (k : String) : Option Item :=
  t.find? (fun r => r.measurementId = k)

/-- `get_all_user_measurements`: the partition query (all items, ascending). -/
def get_all_user_measurements (t : List Item) : List Item := t

/-- The regular records among a query result. -/
def regularOf (items : List Item) : List Item := items.filter isRegularItem

/-- The `RecordTypeIndex` GSI query for `record_type = rt` (first item). -/
def findByRecordType (t : List Item) (rt : String) : Option Item :=
  t.find? (fun r => r.record_type = some rt)

/- ===== Operation embeddings ===== -/

/-- `validate_measurement_values`: the list of range errors (the source raises a
`ValueError` joining them when nonempty). -/
def validate_measurement_values (md : MeasData) : List String :=
  (match md.weight with
   | some w => if w ≤ 0 ∨ w > 1000 then ["weight must be in range 1-1000kg"] else []
   | none => []) ++
  (match md.height with
   | some h => if h < 50 ∨ h > 300 then ["height must be in range 50-300cm"] else []
   | none => []) ++
  (match md.body_fat_percentage with
   | some b => if b < 0 ∨ b > 100 then ["body fat percentage must be in range 0-100"] else []
   | none => [])

/-- One step of `for measurement_type in [...]: if measurement_type in measurement:
record[f'last_{measurement_type}_update'] = measurement_time`. -/
def stampLast (md : MeasData) (mt : String) (it : Item) (m : Metric) : Item :=
  if (md.get m).isSome then it.setLast m mt else it

/-- Companion step writing `first_<metric>_record`. -/
def stampFirst (md : MeasData) (mt : String) (it : Item) (m : Metric) : Item :=
  if (md.get m).isSome then it.setFirst m mt else it

/-- `handle_first_measurement`: write Latest and Oldest as clones of the single
record's metric values, each with its per-metric time attributes. -/
def handle_first_measurement (t : List Item) (md : MeasData) (mt : String) : List Item :=
  let latest0 : Item :=
    { measurementId := "MEASUREMENT#latest", record_type := some "latest",
      weight := md.weight, height := md.height, body_fat_percentage := md.body_fat_percentage,
      measurement_time := some mt }
  let oldest0 : Item :=
    { measurementId := "MEASUREMENT#oldest", record_type := some "oldest",
      weight := md.weight, height := md.height, body_fat_percentage := md.body_fat_percentage,
      measurement_time := some mt }
  let latest1 := metricKeys.foldl (stampLast md mt) latest0
  let oldest1 := metricKeys.foldl (stampFirst md mt) oldest0
  putItem (putItem t latest1) oldest1

/-- The body of `update_latest_record`'s per-metric loop: unconditionally
overwrite value and `last_<metric>_update` for each metric in the new data. -/
def applyLatest (md : MeasData) (mt : String) (it : Item) (m : Metric) : Item :=
  match md.get m with
  | some v => (it.setVal m v).setLast m mt
  | none => it

/-- `update_latest_record`. -/
def update_latest_record (t : List Item) (md : MeasData) (mt : String) : List Item :=
  match findByRecordType t "latest" with
  | none =>
    let latest0 : Item :=
      { measurementId := "MEASUREMENT#latest", record_type := some "latest",
        weight := md.weight, height := md.height, body_fat_percentage := md.body_fat_percentage }
    putItem t (metricKeys.foldl (stampLast md mt) latest0)
  | some cur => putItem t (metricKeys.foldl (applyLatest md mt) cur)

/-- The body of `update_oldest_record`'s per-metric loop: set value and
`first_<metric>_record` only when the metric is not yet present. -/
def applyOldest (md : MeasData) (mt : String) (it : Item) (m : Metric) : Item :=
  match md.get m with
  | some v => if (it.getVal m).isNone then (it.setVal m v).setFirst m mt else it
  | none => it

/-- `update_oldest_record`. -/
def update_oldest_record (t : List Item) (md : MeasData) (mt : String) : List Item :=
  match findByRecordType t "oldest" with
  | none =>
    let oldest0 : Item :=
      { measurementId := "MEASUREMENT#oldest", record_type := some "oldest",
        weight := md.weight, height := md.height, body_fat_percentage := md.body_fat_percentage }
    putItem t (metricKeys.foldl (stampFirst md mt) oldest0)
  | some cur => putItem t (metricKeys.foldl (applyOldest md mt) cur)

/-- `update_latest_oldest_records` (without its `except` wrapper, which the
callers' `fault` flag models). -/
def update_latest_oldest_records (t : List Item) (md : MeasData) (mt : String) : List Item :=
  let regular := regularOf (get_all_user_measurements t)
  if regular.length ≤ 1 then handle_first_measurement t md mt
  else update_oldest_record (update_latest_record t md mt) md mt

structure AddParams where
  weight : Option ℚ := none
  height : Option ℚ := none
  body_fat_percentage : Option ℚ := none
  measurement_time : Option String := none
deriving DecidableEq, Repr

/-- `if measurement_time: ... else now()` — Python truthiness (empty string is
falsy). -/
def effectiveTime (p : AddParams) (now : String) : String :=
  match p.measurement_time with
  | some s => if s = "" then now else s
  | none => now

structure AddResp where
  success : Bool
  errorType : Option String := none
  measurementId : Option String := none
  measurementTime : Option String := none
deriving DecidableEq, Repr

/-- `add_body_measurement` composed with the `lambda_handler` `ValueError`
catch (validation failures become a `ValidationError` response). `fault`
injects a caught exception in the secondary Latest/Oldest maintenance. -/
def add_body_measurement (t : List Item) (p : AddParams) (now : String) (fault : Bool) :
    List Item × AddResp :=
  let md : MeasData := ⟨p.weight, p.height, p.body_fat_percentage⟩
  if md.isEmpty then (t, { success := false, errorType := some "ValidationError" })
  else if validate_measurement_values md ≠ [] then
    (t, { success := false, errorType := some "ValidationError" })
  else
    let mt := effectiveTime p now
    let record : Item :=
      { measurementId := "MEASUREMENT#" ++ mt,
        weight := p.weight, height := p.height, body_fat_percentage := p.body_fat_percentage,
        measurement_time := some mt }
    let t1 := putItem t record
    let t2 := if fault then t1 else update_latest_oldest_records t1 md mt
    (t2, { success := true, measurementId := some mt, measurementTime := some mt })

/- Full recomputation of the summaries (shared body of
`recalculate_latest_record_after_update`, `recalculate_latest_record_after_deletion`
and `recalculate_oldest_record_after_deletion`, which duplicate this logic in
the source). -/

/-- True when no regular record that carries a metric lacks `measurement_time`.
When false, the source's per-metric `sort(key=lambda x: x['measurement_time'])`
raises `KeyError`, the surrounding `except` swallows it, and no summary write
happens. -/
def timesOk (regular : List Item) : Bool :=
  regular.all (fun r => !r.hasAnyMetric || r.measurement_time.isSome)

/-- Sorting `records_with_type.sort(key=lambda x: x['measurement_time'], reverse=True)`:
later-timestamped records first.  Python's `list.sort` is a stable sort;
insertion sort is stable too, so the two agree exactly. -/
def byTimeDesc (a b : Item) : Prop := strLe (timeOf b) (timeOf a) = true

/-- Sorting `records_with_type.sort(key=lambda x: x['measurement_time'])`. -/
def byTimeAsc (a b : Item) : Prop := strLe (timeOf a) (timeOf b) = true

instance : DecidableRel byTimeDesc := fun a b => Bool.decEq (strLe (timeOf b) (timeOf a)) true

instance : DecidableRel byTimeAsc := fun a b => Bool.decEq (strLe (timeOf a) (timeOf b)) true

/-- Per metric: value and time of the head of the stable descending sort by
`measurement_time` of the regular records carrying that metric
(`records_with_type.sort(key=..., reverse=True)`). -/
def latestPair (regular : List Item) (m : Metric) : Option (ℚ × String) :=
  let withType := regular.filter (fun r => (r.getVal m).isSome)
  match List.insertionSort byTimeDesc withType with
  | [] => none
  | r :: _ => (r.getVal m).map (fun v => (v, timeOf r))

/-- Per metric: value and time of the head of the stable ascending sort
(`records_with_type.sort(key=lambda x: x['measurement_time'])`). -/
def oldestPair (regular : List Item) (m : Metric) : Option (ℚ × String) :=
  let withType := regular.filter (fun r => (r.getVal m).isSome)
  match List.insertionSort byTimeAsc withType with
  | [] => none
  | r :: _ => (r.getVal m).map (fun v => (v, timeOf r))

/-- One step of the recomputed-Latest construction:
`latest_values[t] = head[t]; last_update_times[f'last_{t}_update'] = head['measurement_time']`. -/
def rebuildLatestStep (regular : List Item) (it : Item) (m : Metric) : Item :=
  match latestPair regular m with
  | some (v, tm) => (it.setVal m v).setLast m tm
  | none => it

/-- The freshly built `latest_record` of the recomputation paths. -/
def rebuildLatestItem (regular : List Item) : Item :=
  metricKeys.foldl (rebuildLatestStep regular)
    { measurementId := "MEASUREMENT#latest", record_type := some "latest" }

/-- `if latest_values:` — some metric is carried by some regular record. -/
def hasLatestValues (regular : List Item) : Bool :=
  metricKeys.any (fun m => (latestPair regular m).isSome)

/-- One step of the recomputed-Oldest construction. -/
def rebuildOldestStep (regular : List Item) (it : Item) (m : Metric) : Item :=
  match oldestPair regular m with
  | some (v, tm) => (it.setVal m v).setFirst m tm
  | none => it

/-- The freshly built `oldest_record` of the deletion recomputation path. -/
def rebuildOldestItem (regular : List Item) : Item :=
  metricKeys.foldl (rebuildOldestStep regular)
    { measurementId := "MEASUREMENT#oldest", record_type := some "oldest" }

/-- `if oldest_values:`. -/
def hasOldestValues (regular : List Item) : Bool :=
  metricKeys.any (fun m => (oldestPair regular m).isSome)

def recalcLatestFull (t : List Item) : List Item :=
  let regular := regularOf (get_all_user_measurements t)
  if regular.isEmpty then deleteItem t "MEASUREMENT#latest"
  else if timesOk regular then
    (if hasLatestValues regular then putItem t (rebuildLatestItem regular) else t)
  else t

def recalcOldestFull (t : List Item) : List Item :=
  let regular := regularOf (get_all_user_measurements t)
  if regular.isEmpty then deleteItem t "MEASUREMENT#oldest"
  else if timesOk regular then
    (if hasOldestValues regular then putItem t (rebuildOldestItem regular) else t)
  else t

def recalculate_latest_record_after_update (t : List Item) : List Item := recalcLatestFull t

def recalculate_latest_record_after_deletion (t : List Item) : List Item := recalcLatestFull t

def recalculate_oldest_record_after_deletion (t : List Item) : List Item := recalcOldestFull t

structure UpdateParams where
  measurement_id : Option String := none
  weight : Option ℚ := none
  height : Option ℚ := none
  body_fat_percentage : Option ℚ := none
deriving DecidableEq, Repr

structure UpdateResp where
  success : Bool
  errorType : Option String := none
  measurementId : Option String := none
deriving DecidableEq, Repr

def overrideWith (newv old : Option ℚ) : Option ℚ :=
  match newv with
  | some v => some v
  | none => old

/-- `updated_record = existing_record.copy(); updated_record.update(update_data)`. -/
def mergeUpdate (ex : Item) (md : MeasData) : Item :=
  { ex with
    weight := overrideWith md.weight ex.weight,
    height := overrideWith md.height ex.height,
    body_fat_percentage := overrideWith md.body_fat_percentage ex.body_fat_percentage }

/-- `update_body_measurement` composed with the handler's `ValueError` catch. -/
def update_body_measurement (t : List Item) (p : UpdateParams) (fault : Bool) :
    List Item × UpdateResp :=
  match p.measurement_id with
  | none => (t, { success := false, errorType := some "ValidationError" })
  | some mid =>
    if mid = "" then (t, { success := false, errorType := some "ValidationError" })
    else
      let md : MeasData := ⟨p.weight, p.height, p.body_fat_percentage⟩
      if md.isEmpty then (t, { success := false, errorType := some "ValidationError" })
      else if validate_measurement_values md ≠ [] then
        (t, { success := false, errorType := some "ValidationError" })
      else
        match getItem t ("MEASUREMENT#" ++ mid) with
        | none => (t, { success := false, errorType := some "ValidationError" })
        | some ex =>
          let t1 := putItem t (mergeUpdate ex md)
          let t2 := if fault then t1 else recalculate_latest_record_after_update t1
          (t2, { success := true, measurementId := some mid })

structure DeleteParams where
  measurement_id : Option String := none
deriving DecidableEq, Repr

structure DeleteResp where
  success : Bool
  errorType : Option String := none
  deletedMeasurementId : Option String := none
deriving DecidableEq, Repr

/-- `delete_body_measurement` composed with the handler's `ValueError` catch. -/
def delete_body_measurement (t : List Item) (p : DeleteParams) (fault : Bool) :
    List Item × DeleteResp :=
  match p.measurement_id with
  | none => (t, { success := false, errorType := some "ValidationError" })
  | some mid =>
    if mid = "" then (t, { success := false, errorType := some "ValidationError" })
    else
      match getItem t ("MEASUREMENT#" ++ mid) with
      | none => (t, { success := false, errorType := some "ValidationError" })
      | some _ =>
        let t1 := deleteItem t ("MEASUREMENT#" ++ mid)
        let t2 := if fault then t1 else
          recalculate_oldest_record_after_deletion (recalculate_latest_record_after_deletion t1)
        (t2, { success := true, deletedMeasurementId := some mid })

/- ===== GetMeasurementHistory ===== -/

structure HistoryParams where
  start_date : Option String := none
  end_date : Option String := none
  limit : Option Nat := none
deriving DecidableEq, Repr

structure HistoryEntry where
  measurement_id : String
  weight : Option ℚ := none
  height : Option ℚ := none
  body_fat_percentage : Option ℚ := none
  measurement_time : Option String := none
deriving DecidableEq, Repr

/-- `value.replace('MEASUREMENT#', '')`: remove every occurrence of the tag. -/
def removeMeasTag : List Char → List Char
  | 'M' :: 'E' :: 'A' :: 'S' :: 'U' :: 'R' :: 'E' :: 'M' :: 'E' :: 'N' :: 'T' :: '#' :: rest =>
      removeMeasTag rest
  | c :: rest => c :: removeMeasTag rest
  | [] => []

def stripMeasTag (s : String) : String := ⟨removeMeasTag s.data⟩

/-- The `clean_measurement` dict built for each history result entry
(`created_at` omitted from the model, see header). -/
def cleanMeasurement (r : Item) : HistoryEntry :=
  { measurement_id := stripMeasTag r.measurementId,
    weight := r.weight, height := r.height, body_fat_percentage := r.body_fat_percentage,
    measurement_time := r.measurement_time }

/-- The `BETWEEN` range query with `ScanIndexForward=False` and `Limit`:
descending by sort key, capped at `limit`, inclusive bounds. -/
def queryRangeDesc (t : List Item) (startKey endKey : String) (limit : Nat) : List Item :=
  ((t.filter (fun r => strLe startKey r.measurementId && strLe r.measurementId endKey)).reverse).take limit

structure HistoryResp where
  success : Bool
  errorType : Option String := none
  measurements : List HistoryEntry := []
  count : Nat := 0
deriving DecidableEq, Repr

/-- `get_measurement_history` composed with the handler's `ValueError` catch. -/
def get_measurement_history (t : List Item) (p : HistoryParams) : HistoryResp :=
  match p.start_date, p.end_date with
  | some s, some e =>
    if s = "" ∨ e = "" then { success := false, errorType := some "ValidationError" }
    else
      let raw := queryRangeDesc t ("MEASUREMENT#" ++ s) ("MEASUREMENT#" ++ e ++ "Z") (p.limit.getD 50)
      let ms := raw.filter isRegularItem
      let result := ms.map cleanMeasurement
      { success := true, measurements := result, count := result.length }
  | _, _ => { success := false, errorType := some "ValidationError" }

/- ===== Well-formedness predicates and specification vocabulary ===== -/

/-- The two summary sentinels carry `record_type` and the fixed sentinel ids,
and nothing else does — true of every state the handler itself produces. -/
def sentinelWF (t : List Item) : Prop :=
  ∀ r ∈ t,
    (r.record_type = some "latest" ↔ r.measurementId = "MEASUREMENT#latest") ∧
    (r.record_type = some "oldest" ↔ r.measurementId = "MEASUREMENT#oldest")

/-- Every record in the list carries at least one metric and a
`measurement_time` attribute. -/
def regularWF (l : List Item) : Prop :=
  ∀ r ∈ l, r.hasAnyMetric = true ∧ r.measurement_time.isSome = true

/-- The C10 store invariant: every regular record ever persisted carries at
least one metric and a `measurement_time`. -/
def tableWF (t : List Item) : Prop :=
  ∀ r ∈ t, isRegularItem r = true →
    r.hasAnyMetric = true ∧ r.measurement_time.isSome = true

/-- `L` is a correct Latest summary of the regular records `reg`: for each
metric carried by some record it holds the value and time of a record of
maximal `measurement_time` carrying it, and it omits metrics carried by no
record. -/
def IsLatestOf (reg : List Item) (L : Item) : Prop :=
  ∀ m : Metric,
    ((∃ r ∈ reg, (r.getVal m).isSome = true) →
      ∃ r ∈ reg, (r.getVal m).isSome = true ∧ L.getVal m = r.getVal m ∧
        L.getLast m = some (timeOf r) ∧
        ∀ s ∈ reg, (s.getVal m).isSome = true → strLe (timeOf s) (timeOf r) = true) ∧
    ((∀ r ∈ reg, (r.getVal m).isSome = false) → L.getVal m = none ∧ L.getLast m = none)

/-- `O` is a correct Oldest summary of `reg`: per metric, the value and time of
a record of minimal `measurement_time` carrying it. -/
def IsOldestOf (reg : List Item) (O : Item) : Prop :=
  ∀ m : Metric,
    ((∃ r ∈ reg, (r.getVal m).isSome = true) →
      ∃ r ∈ reg, (r.getVal m).isSome = true ∧ O.getVal m = r.getVal m ∧
        O.getFirst m = some (timeOf r) ∧
        ∀ s ∈ reg, (s.getVal m).isSome = true → strLe (timeOf r) (timeOf s) = true) ∧
    ((∀ r ∈ reg, (r.getVal m).isSome = false) → O.getVal m = none ∧ O.getFirst m = none)

/-- DynamoDB keeps a partition's items sorted by sort key; the query results
the handler consumes are in this order. -/
def tableSorted (t : List Item) : Prop :=
  t.Pairwise (fun a b => strLt a.measurementId b.measurementId = true)

/- ===== Lemmas: the string order ===== -/

theorem charListLt_irrefl : ∀ l : List Char, charListLt l l = false
  | [] => rfl
  | a :: as => by simp [charListLt, charListLt_irrefl as]

theorem charListLt_asymm : ∀ l₁ l₂ : List Char,
    charListLt l₁ l₂ = true → charListLt l₂ l₁ = false
  | _, [], h => by simp [charListLt] at h
  | [], _ :: _, _ => by simp [charListLt]
  | a :: as, b :: bs, h => by
    by_cases hab : a < b
    · have hba : ¬ b < a := fun hba => lt_irrefl b (lt_trans hba hab)
      simp [charListLt, hab, hba]
    · by_cases hba : b < a
      · simp [charListLt, hab, hba] at h
      · simp only [charListLt, if_neg hab, if_neg hba] at h
        simp [charListLt, hab, hba, charListLt_asymm as bs h]

theorem charListLt_conn : ∀ l₁ l₂ : List Char,
    charListLt l₁ l₂ = false → charListLt l₂ l₁ = false → l₁ = l₂
  | [], [], _, _ => rfl
  | [], _ :: _, h, _ => by simp [charListLt] at h
  | _ :: _, [], _, h => by simp [charListLt] at h
  | a :: as, b :: bs, h₁, h₂ => by
    by_cases hab : a < b
    · simp [charListLt, hab] at h₁
    · by_cases hba : b < a
      · simp [charListLt, hba] at h₂
      · have hab' : a = b := le_antisymm (not_lt.mp hba) (not_lt.mp hab)
        simp only [charListLt, if_neg hab, if_neg hba] at h₁ h₂
        rw [hab', charListLt_conn as bs h₁ h₂]

theorem charListLt_trans : ∀ l₁ l₂ l₃ : List Char,
    charListLt l₁ l₂ = true → charListLt l₂ l₃ = true → charListLt l₁ l₃ = true
  | _, l₂, [], _, h₂ => by cases l₂ <;> simp [charListLt] at h₂
  | [], _, _ :: _, _, _ => by simp [charListLt]
  | _ :: _, [], _ :: _, h₁, _ => by simp [charListLt] at h₁
  | a :: as, b :: bs, c :: cs, h₁, h₂ => by
    by_cases hab : a < b
    · by_cases hbc : b < c
      · simp [charListLt, lt_trans hab hbc]
      · by_cases hcb : c < b
        · simp [charListLt, hbc, hcb] at h₂
        · have hbc' : b = c := le_antisymm (not_lt.mp hcb) (not_lt.mp hbc)
          subst hbc'
          simp [charListLt, hab]
    · by_cases hba : b < a
      · simp [charListLt, hab, hba] at h₁
      · have hab' : a = b := le_antisymm (not_lt.mp hba) (not_lt.mp hab)
        subst hab'
        simp only [charListLt, if_neg hab, if_neg hba] at h₁
        by_cases hbc : a < c
        · simp [charListLt, hbc]
        · by_cases hcb : c < a
          · simp [charListLt, hbc, hcb] at h₂
          · simp only [charListLt, if_neg hbc, if_neg hcb] at h₂ ⊢
            exact charListLt_trans as bs cs h₁ h₂

theorem strLe_refl (a : String) : strLe a a = true := by
  simp [strLe, strLt, charListLt_irrefl]

theorem strLe_total (a b : String) : strLe a b = true ∨ strLe b a = true := by
  by_cases h : charListLt b.data a.data = true
  · right
    simp [strLe, strLt, charListLt_asymm _ _ h]
  · left
    simp only [strLe, strLt, Bool.not_eq_true']
    exact Bool.eq_false_iff.mpr h

theorem strLe_trans (a b c : String) :
    strLe a b = true → strLe b c = true → strLe a c = true := by
  intro h₁ h₂
  simp only [strLe, strLt, Bool.not_eq_true'] at h₁ h₂ ⊢
  by_contra h
  have hca : charListLt c.data a.data = true := by
    cases hx : charListLt c.data a.data
    · exact absurd hx h
    · rfl
  by_cases hbc : charListLt b.data c.data = true
  · have hba := charListLt_trans _ _ _ hbc hca
    rw [h₁] at hba
    exact Bool.noConfusion hba
  · have hbc0 : charListLt b.data c.data = false := by
      cases hx : charListLt b.data c.data
      · rfl
      · exact absurd hx hbc
    have hbceq : b.data = c.data := charListLt_conn _ _ hbc0 h₂
    rw [← hbceq, h₁] at hca
    exact Bool.noConfusion hca

/- ===== Lemmas: item getters and setters ===== -/

@[simp] theorem getVal_setLast (r : Item) (m m' : Metric) (s : String) :
    (r.setLast m s).getVal m' = r.getVal m' := by
  cases m <;> cases m' <;> rfl

@[simp] theorem getVal_setFirst (r : Item) (m m' : Metric) (s : String) :
    (r.setFirst m s).getVal m' = r.getVal m' := by
  cases m <;> cases m' <;> rfl

@[simp] theorem getLast_setVal (r : Item) (m m' : Metric) (v : ℚ) :
    (r.setVal m v).getLast m' = r.getLast m' := by
  cases m <;> cases m' <;> rfl

@[simp] theorem getLast_setFirst (r : Item) (m m' : Metric) (s : String) :
    (r.setFirst m s).getLast m' = r.getLast m' := by
  cases m <;> cases m' <;> rfl

@[simp] theorem getFirst_setVal (r : Item) (m m' : Metric) (v : ℚ) :
    (r.setVal m v).getFirst m' = r.getFirst m' := by
  cases m <;> cases m' <;> rfl

@[simp] theorem getFirst_setLast (r : Item) (m m' : Metric) (s : String) :
    (r.setLast m s).getFirst m' = r.getFirst m' := by
  cases m <;> cases m' <;> rfl

theorem getVal_setVal_self (r : Item) (m : Metric) (v : ℚ) :
    (r.setVal m v).getVal m = some v := by
  cases m <;> rfl

theorem getVal_setVal_ne (r : Item) {m m' : Metric} (h : m ≠ m') (v : ℚ) :
    (r.setVal m v).getVal m' = r.getVal m' := by
  cases m <;> cases m' <;> first | rfl | exact absurd rfl h

theorem getLast_setLast_self (r : Item) (m : Metric) (s : String) :
    (r.setLast m s).getLast m = some s := by
  cases m <;> rfl

theorem getLast_setLast_ne (r : Item) {m m' : Metric} (h : m ≠ m') (s : String) :
    (r.setLast m s).getLast m' = r.getLast m' := by
  cases m <;> cases m' <;> first | rfl | exact absurd rfl h

theorem getFirst_setFirst_self (r : Item) (m : Metric) (s : String) :
    (r.setFirst m s).getFirst m = some s := by
  cases m <;> rfl

theorem getFirst_setFirst_ne (r : Item) {m m' : Metric} (h : m ≠ m') (s : String) :
    (r.setFirst m s).getFirst m' = r.getFirst m' := by
  cases m <;> cases m' <;> first | rfl | exact absurd rfl h

@[simp] theorem measurementId_setVal (r : Item) (m : Metric) (v : ℚ) :
    (r.setVal m v).measurementId = r.measurementId := by cases m <;> rfl

@[simp] theorem measurementId_setLast (r : Item) (m : Metric) (s : String) :
    (r.setLast m s).measurementId = r.measurementId := by cases m <;> rfl

@[simp] theorem measurementId_setFirst (r : Item) (m : Metric) (s : String) :
    (r.setFirst m s).measurementId = r.measurementId := by cases m <;> rfl

@[simp] theorem record_type_setVal (r : Item) (m : Metric) (v : ℚ) :
    (r.setVal m v).record_type = r.record_type := by cases m <;> rfl

@[simp] theorem record_type_setLast (r : Item) (m : Metric) (s : String) :
    (r.setLast m s).record_type = r.record_type := by cases m <;> rfl

@[simp] theorem record_type_setFirst (r : Item) (m : Metric) (s : String) :
    (r.setFirst m s).record_type = r.record_type := by cases m <;> rfl

@[simp] theorem measurement_time_setVal (r : Item) (m : Metric) (v : ℚ) :
    (r.setVal m v).measurement_time = r.measurement_time := by cases m <;> rfl

@[simp] theorem measurement_time_setLast (r : Item) (m : Metric) (s : String) :
    (r.setLast m s).measurement_time = r.measurement_time := by cases m <;> rfl

@[simp] theorem measurement_time_setFirst (r : Item) (m : Metric) (s : String) :
    (r.setFirst m s).measurement_time = r.measurement_time := by cases m <;> rfl

/-- Every metric is in the loop list. -/
theorem mem_metricKeys (m : Metric) : m ∈ metricKeys := by
  cases m <;> simp [metricKeys]

/- ===== Lemmas: the per-metric loop steps ===== -/

@[simp] theorem stampLast_getVal (md : MeasData) (mt : String) (it : Item) (m m' : Metric) :
    (stampLast md mt it m).getVal m' = it.getVal m' := by
  unfold stampLast
  split <;> simp

@[simp] theorem stampLast_getFirst (md : MeasData) (mt : String) (it : Item) (m m' : Metric) :
    (stampLast md mt it m).getFirst m' = it.getFirst m' := by
  unfold stampLast
  split <;> simp

theorem stampLast_getLast_ne (md : MeasData) (mt : String) (it : Item) {m m' : Metric}
    (h : m ≠ m') : (stampLast md mt it m).getLast m' = it.getLast m' := by
  unfold stampLast
  split <;> simp [getLast_setLast_ne _ h]

theorem stampLast_getLast_self (md : MeasData) (mt : String) (it : Item) (m : Metric) :
    (stampLast md mt it m).getLast m =
      if (md.get m).isSome then some mt else it.getLast m := by
  unfold stampLast
  split <;> simp_all [getLast_setLast_self]

@[simp] theorem stampLast_measurementId (md : MeasData) (mt : String) (it : Item) (m : Metric) :
    (stampLast md mt it m).measurementId = it.measurementId := by
  unfold stampLast
  split <;> simp

@[simp] theorem stampLast_record_type (md : MeasData) (mt : String) (it : Item) (m : Metric) :
    (stampLast md mt it m).record_type = it.record_type := by
  unfold stampLast
  split <;> simp

@[simp] theorem stampLast_measurement_time (md : MeasData) (mt : String) (it : Item) (m : Metric) :
    (stampLast md mt it m).measurement_time = it.measurement_time := by
  unfold stampLast
  split <;> simp

@[simp] theorem stampFirst_getVal (md : MeasData) (mt : String) (it : Item) (m m' : Metric) :
    (stampFirst md mt it m).getVal m' = it.getVal m' := by
  unfold stampFirst
  split <;> simp

@[simp] theorem stampFirst_getLast (md : MeasData) (mt : String) (it : Item) (m m' : Metric) :
    (stampFirst md mt it m).getLast m' = it.getLast m' := by
  unfold stampFirst
  split <;> simp

theorem stampFirst_getFirst_ne (md : MeasData) (mt : String) (it : Item) {m m' : Metric}
    (h : m ≠ m') : (stampFirst md mt it m).getFirst m' = it.getFirst m' := by
  unfold stampFirst
  split <;> simp [getFirst_setFirst_ne _ h]

theorem stampFirst_getFirst_self (md : MeasData) (mt : String) (it : Item) (m : Metric) :
    (stampFirst md mt it m).getFirst m =
      if (md.get m).isSome then some mt else it.getFirst m := by
  unfold stampFirst
  split <;> simp_all [getFirst_setFirst_self]

@[simp] theorem stampFirst_measurementId (md : MeasData) (mt : String) (it : Item) (m : Metric) :
    (stampFirst md mt it m).measurementId = it.measurementId := by
  unfold stampFirst
  split <;> simp

@[simp] theorem stampFirst_record_type (md : MeasData) (mt : String) (it : Item) (m : Metric) :
    (stampFirst md mt it m).record_type = it.record_type := by
  unfold stampFirst
  split <;> simp

@[simp] theorem stampFirst_measurement_time (md : MeasData) (mt : String) (it : Item) (m : Metric) :
    (stampFirst md mt it m).measurement_time = it.measurement_time := by
  unfold stampFirst
  split <;> simp

@[simp] theorem applyLatest_getFirst (md : MeasData) (mt : String) (it : Item) (m m' : Metric) :
    (applyLatest md mt it m).getFirst m' = it.getFirst m' := by
  unfold applyLatest
  split <;> simp

theorem applyLatest_getVal_ne (md : MeasData) (mt : String) (it : Item) {m m' : Metric}
    (h : m ≠ m') : (applyLatest md mt it m).getVal m' = it.getVal m' := by
  unfold applyLatest
  split <;> simp [getVal_setVal_ne _ h]

theorem applyLatest_getVal_self (md : MeasData) (mt : String) (it : Item) (m : Metric) :
    (applyLatest md mt it m).getVal m =
      if (md.get m).isSome then md.get m else it.getVal m := by
  unfold applyLatest
  split <;> simp_all [getVal_setVal_self]

theorem applyLatest_getLast_ne (md : MeasData) (mt : String) (it : Item) {m m' : Metric}
    (h : m ≠ m') : (applyLatest md mt it m).getLast m' = it.getLast m' := by
  unfold applyLatest
  split <;> simp [getLast_setLast_ne _ h]

theorem applyLatest_getLast_self (md : MeasData) (mt : String) (it : Item) (m : Metric) :
    (applyLatest md mt it m).getLast m =
      if (md.get m).isSome then some mt else it.getLast m := by
  unfold applyLatest
  split <;> simp_all [getLast_setLast_self]

@[simp] theorem applyLatest_measurementId (md : MeasData) (mt : String) (it : Item) (m : Metric) :
    (applyLatest md mt it m).measurementId = it.measurementId := by
  unfold applyLatest
  split <;> simp

@[simp] theorem applyLatest_record_type (md : MeasData) (mt : String) (it : Item) (m : Metric) :
    (applyLatest md mt it m).record_type = it.record_type := by
  unfold applyLatest
  split <;> simp

@[simp] theorem applyLatest_measurement_time (md : MeasData) (mt : String) (it : Item) (m : Metric) :
    (applyLatest md mt it m).measurement_time = it.measurement_time := by
  unfold applyLatest
  split <;> simp

@[simp] theorem applyOldest_getLast (md : MeasData) (mt : String) (it : Item) (m m' : Metric) :
    (applyOldest md mt it m).getLast m' = it.getLast m' := by
  unfold applyOldest
  split
  · split <;> simp
  · rfl

theorem applyOldest_getVal_ne (md : MeasData) (mt : String) (it : Item) {m m' : Metric}
    (h : m ≠ m') : (applyOldest md mt it m).getVal m' = it.getVal m' := by
  unfold applyOldest
  split
  · split <;> simp [getVal_setVal_ne _ h]
  · rfl

theorem applyOldest_getVal_self (md : MeasData) (mt : String) (it : Item) (m : Metric) :
    (applyOldest md mt it m).getVal m =
      if (md.get m).isSome then
        (if (it.getVal m).isNone then md.get m else it.getVal m)
      else it.getVal m := by
  cases hmd : md.get m with
  | none => simp [applyOldest, hmd]
  | some v =>
    by_cases hit : (it.getVal m).isNone
    · simp [applyOldest, hmd, hit, getVal_setVal_self]
    · simp [applyOldest, hmd, hit]

theorem applyOldest_getFirst_ne (md : MeasData) (mt : String) (it : Item) {m m' : Metric}
    (h : m ≠ m') : (applyOldest md mt it m).getFirst m' = it.getFirst m' := by
  unfold applyOldest
  split
  · split <;> simp [getFirst_setFirst_ne _ h]
  · rfl

theorem applyOldest_getFirst_self (md : MeasData) (mt : String) (it : Item) (m : Metric) :
    (applyOldest md mt it m).getFirst m =
      if (md.get m).isSome then
        (if (it.getVal m).isNone then some mt else it.getFirst m)
      else it.getFirst m := by
  cases hmd : md.get m with
  | none => simp [applyOldest, hmd]
  | some v =>
    by_cases hit : (it.getVal m).isNone
    · simp [applyOldest, hmd, hit, getFirst_setFirst_self]
    · simp [applyOldest, hmd, hit]

@[simp] theorem applyOldest_measurementId (md : MeasData) (mt : String) (it : Item) (m : Metric) :
    (applyOldest md mt it m).measurementId = it.measurementId := by
  unfold applyOldest
  split
  · split <;> simp
  · rfl

@[simp] theorem applyOldest_record_type (md : MeasData) (mt : String) (it : Item) (m : Metric) :
    (applyOldest md mt it m).record_type = it.record_type := by
  unfold applyOldest
  split
  · split <;> simp
  · rfl

@[simp] theorem applyOldest_measurement_time (md : MeasData) (mt : String) (it : Item) (m : Metric) :
    (applyOldest md mt it m).measurement_time = it.measurement_time := by
  unfold applyOldest
  split
  · split <;> simp
  · rfl

@[simp] theorem rebuildLatestStep_getFirst (reg : List Item) (it : Item) (m m' : Metric) :
    (rebuildLatestStep reg it m).getFirst m' = it.getFirst m' := by
  unfold rebuildLatestStep
  split <;> simp

theorem rebuildLatestStep_getVal_ne (reg : List Item) (it : Item) {m m' : Metric}
    (h : m ≠ m') : (rebuildLatestStep reg it m).getVal m' = it.getVal m' := by
  unfold rebuildLatestStep
  split <;> simp [getVal_setVal_ne _ h]

theorem rebuildLatestStep_getVal_self (reg : List Item) (it : Item) (m : Metric) :
    (rebuildLatestStep reg it m).getVal m =
      match latestPair reg m with
      | some p => some p.1
      | none => it.getVal m := by
  cases hp : latestPair reg m with
  | none => simp [rebuildLatestStep, hp]
  | some p =>
    cases p
    simp [rebuildLatestStep, hp, getVal_setVal_self]

theorem rebuildLatestStep_getLast_ne (reg : List Item) (it : Item) {m m' : Metric}
    (h : m ≠ m') : (rebuildLatestStep reg it m).getLast m' = it.getLast m' := by
  unfold rebuildLatestStep
  split <;> simp [getLast_setLast_ne _ h]

theorem rebuildLatestStep_getLast_self (reg : List Item) (it : Item) (m : Metric) :
    (rebuildLatestStep reg it m).getLast m =
      match latestPair reg m with
      | some p => some p.2
      | none => it.getLast m := by
  cases hp : latestPair reg m with
  | none => simp [rebuildLatestStep, hp]
  | some p =>
    cases p
    simp [rebuildLatestStep, hp, getLast_setLast_self]

@[simp] theorem rebuildLatestStep_measurementId (reg : List Item) (it : Item) (m : Metric) :
    (rebuildLatestStep reg it m).measurementId = it.measurementId := by
  unfold rebuildLatestStep
  split <;> simp

@[simp] theorem rebuildLatestStep_record_type (reg : List Item) (it : Item) (m : Metric) :
    (rebuildLatestStep reg it m).record_type = it.record_type := by
  unfold rebuildLatestStep
  split <;> simp

@[simp] theorem rebuildOldestStep_getLast (reg : List Item) (it : Item) (m m' : Metric) :
    (rebuildOldestStep reg it m).getLast m' = it.getLast m' := by
  unfold rebuildOldestStep
  split <;> simp

theorem rebuildOldestStep_getVal_ne (reg : List Item) (it : Item) {m m' : Metric}
    (h : m ≠ m') : (rebuildOldestStep reg it m).getVal m' = it.getVal m' := by
  unfold rebuildOldestStep
  split <;> simp [getVal_setVal_ne _ h]

theorem rebuildOldestStep_getVal_self (reg : List Item) (it : Item) (m : Metric) :
    (rebuildOldestStep reg it m).getVal m =
      match oldestPair reg m with
      | some p => some p.1
      | none => it.getVal m := by
  cases hp : oldestPair reg m with
  | none => simp [rebuildOldestStep, hp]
  | some p =>
    cases p
    simp [rebuildOldestStep, hp, getVal_setVal_self]

theorem rebuildOldestStep_getFirst_ne (reg : List Item) (it : Item) {m m' : Metric}
    (h : m ≠ m') : (rebuildOldestStep reg it m).getFirst m' = it.getFirst m' := by
  unfold rebuildOldestStep
  split <;> simp [getFirst_setFirst_ne _ h]

theorem rebuildOldestStep_getFirst_self (reg : List Item) (it : Item) (m : Metric) :
    (rebuildOldestStep reg it m).getFirst m =
      match oldestPair reg m with
      | some p => some p.2
      | none => it.getFirst m := by
  cases hp : oldestPair reg m with
  | none => simp [rebuildOldestStep, hp]
  | some p =>
    cases p
    simp [rebuildOldestStep, hp, getFirst_setFirst_self]

@[simp] theorem rebuildOldestStep_measurementId (reg : List Item) (it : Item) (m : Metric) :
    (rebuildOldestStep reg it m).measurementId = it.measurementId := by
  unfold rebuildOldestStep
  split <;> simp

@[simp] theorem rebuildOldestStep_record_type (reg : List Item) (it : Item) (m : Metric) :
    (rebuildOldestStep reg it m).record_type = it.record_type := by
  unfold rebuildOldestStep
  split <;> simp

/- ===== Lemmas: folds over the metric list ===== -/

theorem foldl_item_preserve {β : Sort _} (f : Item → β) (S : Item → Metric → Item)
    (h : ∀ it m, f (S it m) = f it) :
    ∀ (ms : List Metric) (base : Item), f (List.foldl S base ms) = f base := by
  intro ms
  induction ms with
  | nil => intro base; rfl
  | cons m ms ih =>
    intro base
    rw [List.foldl_cons, ih, h]

theorem foldl_stampLast_getVal (md : MeasData) (mt : String) (base : Item) (m : Metric) :
    (metricKeys.foldl (stampLast md mt) base).getVal m = base.getVal m :=
  foldl_item_preserve (fun it => it.getVal m) _ (by simp) _ _

theorem foldl_stampLast_getFirst (md : MeasData) (mt : String) (base : Item) (m : Metric) :
    (metricKeys.foldl (stampLast md mt) base).getFirst m = base.getFirst m :=
  foldl_item_preserve (fun it => it.getFirst m) _ (by simp) _ _

theorem foldl_stampLast_measurementId (md : MeasData) (mt : String) (base : Item) :
    (metricKeys.foldl (stampLast md mt) base).measurementId = base.measurementId :=
  foldl_item_preserve (fun it => it.measurementId) _ (by simp) _ _

theorem foldl_stampLast_record_type (md : MeasData) (mt : String) (base : Item) :
    (metricKeys.foldl (stampLast md mt) base).record_type = base.record_type :=
  foldl_item_preserve (fun it => it.record_type) _ (by simp) _ _

theorem foldl_stampLast_measurement_time (md : MeasData) (mt : String) (base : Item) :
    (metricKeys.foldl (stampLast md mt) base).measurement_time = base.measurement_time :=
  foldl_item_preserve (fun it => it.measurement_time) _ (by simp) _ _

theorem foldl_stampLast_getLast (md : MeasData) (mt : String) (base : Item) (m : Metric) :
    (metricKeys.foldl (stampLast md mt) base).getLast m =
      if (md.get m).isSome then some mt else base.getLast m := by
  cases m <;>
    simp [metricKeys, stampLast_getLast_self, stampLast_getLast_ne]

theorem foldl_stampFirst_getVal (md : MeasData) (mt : String) (base : Item) (m : Metric) :
    (metricKeys.foldl (stampFirst md mt) base).getVal m = base.getVal m :=
  foldl_item_preserve (fun it => it.getVal m) _ (by simp) _ _

theorem foldl_stampFirst_getLast (md : MeasData) (mt : String) (base : Item) (m : Metric) :
    (metricKeys.foldl (stampFirst md mt) base).getLast m = base.getLast m :=
  foldl_item_preserve (fun it => it.getLast m) _ (by simp) _ _

theorem foldl_stampFirst_measurementId (md : MeasData) (mt : String) (base : Item) :
    (metricKeys.foldl (stampFirst md mt) base).measurementId = base.measurementId :=
  foldl_item_preserve (fun it => it.measurementId) _ (by simp) _ _

theorem foldl_stampFirst_record_type (md : MeasData) (mt : String) (base : Item) :
    (metricKeys.foldl (stampFirst md mt) base).record_type = base.record_type :=
  foldl_item_preserve (fun it => it.record_type) _ (by simp) _ _

theorem foldl_stampFirst_measurement_time (md : MeasData) (mt : String) (base : Item) :
    (metricKeys.foldl (stampFirst md mt) base).measurement_time = base.measurement_time :=
  foldl_item_preserve (fun it => it.measurement_time) _ (by simp) _ _

theorem foldl_stampFirst_getFirst (md : MeasData) (mt : String) (base : Item) (m : Metric) :
    (metricKeys.foldl (stampFirst md mt) base).getFirst m =
      if (md.get m).isSome then some mt else base.getFirst m := by
  cases m <;>
    simp [metricKeys, stampFirst_getFirst_self, stampFirst_getFirst_ne]

theorem foldl_applyLatest_getVal (md : MeasData) (mt : String) (base : Item) (m : Metric) :
    (metricKeys.foldl (applyLatest md mt) base).getVal m =
      if (md.get m).isSome then md.get m else base.getVal m := by
  cases m <;>
    simp [metricKeys, applyLatest_getVal_self, applyLatest_getVal_ne]

theorem foldl_applyLatest_getLast (md : MeasData) (mt : String) (base : Item) (m : Metric) :
    (metricKeys.foldl (applyLatest md mt) base).getLast m =
      if (md.get m).isSome then some mt else base.getLast m := by
  cases m <;>
    simp [metricKeys, applyLatest_getLast_self, applyLatest_getLast_ne]

theorem foldl_applyLatest_getFirst (md : MeasData) (mt : String) (base : Item) (m : Metric) :
    (metricKeys.foldl (applyLatest md mt) base).getFirst m = base.getFirst m :=
  foldl_item_preserve (fun it => it.getFirst m) _ (by simp) _ _

theorem foldl_applyLatest_measurementId (md : MeasData) (mt : String) (base : Item) :
    (metricKeys.foldl (applyLatest md mt) base).measurementId = base.measurementId :=
  foldl_item_preserve (fun it => it.measurementId) _ (by simp) _ _

theorem foldl_applyLatest_record_type (md : MeasData) (mt : String) (base : Item) :
    (metricKeys.foldl (applyLatest md mt) base).record_type = base.record_type :=
  foldl_item_preserve (fun it => it.record_type) _ (by simp) _ _

theorem foldl_applyLatest_measurement_time (md : MeasData) (mt : String) (base : Item) :
    (metricKeys.foldl (applyLatest md mt) base).measurement_time = base.measurement_time :=
  foldl_item_preserve (fun it => it.measurement_time) _ (by simp) _ _

theorem foldl_applyOldest_getVal (md : MeasData) (mt : String) (base : Item) (m : Metric) :
    (metricKeys.foldl (applyOldest md mt) base).getVal m =
      if (md.get m).isSome then
        (if (base.getVal m).isNone then md.get m else base.getVal m)
      else base.getVal m := by
  cases m <;>
    simp [metricKeys, applyOldest_getVal_self, applyOldest_getVal_ne]

theorem foldl_applyOldest_getFirst (md : MeasData) (mt : String) (base : Item) (m : Metric) :
    (metricKeys.foldl (applyOldest md mt) base).getFirst m =
      if (md.get m).isSome then
        (if (base.getVal m).isNone then some mt else base.getFirst m)
      else base.getFirst m := by
  cases m <;>
    simp [metricKeys, applyOldest_getFirst_self, applyOldest_getFirst_ne, applyOldest_getVal_ne]

theorem foldl_applyOldest_getLast (md : MeasData) (mt : String) (base : Item) (m : Metric) :
    (metricKeys.foldl (applyOldest md mt) base).getLast m = base.getLast m :=
  foldl_item_preserve (fun it => it.getLast m) _ (by simp) _ _

theorem foldl_applyOldest_measurementId (md : MeasData) (mt : String) (base : Item) :
    (metricKeys.foldl (applyOldest md mt) base).measurementId = base.measurementId :=
  foldl_item_preserve (fun it => it.measurementId) _ (by simp) _ _

theorem foldl_applyOldest_record_type (md : MeasData) (mt : String) (base : Item) :
    (metricKeys.foldl (applyOldest md mt) base).record_type = base.record_type :=
  foldl_item_preserve (fun it => it.record_type) _ (by simp) _ _

theorem foldl_applyOldest_measurement_time (md : MeasData) (mt : String) (base : Item) :
    (metricKeys.foldl (applyOldest md mt) base).measurement_time = base.measurement_time :=
  foldl_item_preserve (fun it => it.measurement_time) _ (by simp) _ _

theorem rebuildLatestItem_getVal (reg : List Item) (m : Metric) :
    (rebuildLatestItem reg).getVal m = (latestPair reg m).map Prod.fst := by
  unfold rebuildLatestItem
  cases m with
  | weight =>
    simp only [metricKeys, List.foldl_cons, List.foldl_nil]
    rw [rebuildLatestStep_getVal_ne reg _ (by decide), rebuildLatestStep_getVal_ne reg _ (by decide),
      rebuildLatestStep_getVal_self]
    cases latestPair reg Metric.weight <;> rfl
  | height =>
    simp only [metricKeys, List.foldl_cons, List.foldl_nil]
    rw [rebuildLatestStep_getVal_ne reg _ (by decide), rebuildLatestStep_getVal_self,
      rebuildLatestStep_getVal_ne reg _ (by decide)]
    cases latestPair reg Metric.height <;> rfl
  | body_fat_percentage =>
    simp only [metricKeys, List.foldl_cons, List.foldl_nil]
    rw [rebuildLatestStep_getVal_self, rebuildLatestStep_getVal_ne reg _ (by decide),
      rebuildLatestStep_getVal_ne reg _ (by decide)]
    cases latestPair reg Metric.body_fat_percentage <;> rfl

theorem rebuildLatestItem_getLast (reg : List Item) (m : Metric) :
    (rebuildLatestItem reg).getLast m = (latestPair reg m).map Prod.snd := by
  unfold rebuildLatestItem
  cases m with
  | weight =>
    simp only [metricKeys, List.foldl_cons, List.foldl_nil]
    rw [rebuildLatestStep_getLast_ne reg _ (by decide), rebuildLatestStep_getLast_ne reg _ (by decide),
      rebuildLatestStep_getLast_self]
    cases latestPair reg Metric.weight <;> rfl
  | height =>
    simp only [metricKeys, List.foldl_cons, List.foldl_nil]
    rw [rebuildLatestStep_getLast_ne reg _ (by decide), rebuildLatestStep_getLast_self,
      rebuildLatestStep_getLast_ne reg _ (by decide)]
    cases latestPair reg Metric.height <;> rfl
  | body_fat_percentage =>
    simp only [metricKeys, List.foldl_cons, List.foldl_nil]
    rw [rebuildLatestStep_getLast_self, rebuildLatestStep_getLast_ne reg _ (by decide),
      rebuildLatestStep_getLast_ne reg _ (by decide)]
    cases latestPair reg Metric.body_fat_percentage <;> rfl

theorem rebuildLatestItem_measurementId (reg : List Item) :
    (rebuildLatestItem reg).measurementId = "MEASUREMENT#latest" :=
  foldl_item_preserve (fun it => it.measurementId) _ (by simp) _ _

theorem rebuildLatestItem_record_type (reg : List Item) :
    (rebuildLatestItem reg).record_type = some "latest" :=
  foldl_item_preserve (fun it => it.record_type) _ (by simp) _ _

theorem rebuildOldestItem_getVal (reg : List Item) (m : Metric) :
    (rebuildOldestItem reg).getVal m = (oldestPair reg m).map Prod.fst := by
  unfold rebuildOldestItem
  cases m with
  | weight =>
    simp only [metricKeys, List.foldl_cons, List.foldl_nil]
    rw [rebuildOldestStep_getVal_ne reg _ (by decide), rebuildOldestStep_getVal_ne reg _ (by decide),
      rebuildOldestStep_getVal_self]
    cases oldestPair reg Metric.weight <;> rfl
  | height =>
    simp only [metricKeys, List.foldl_cons, List.foldl_nil]
    rw [rebuildOldestStep_getVal_ne reg _ (by decide), rebuildOldestStep_getVal_self,
      rebuildOldestStep_getVal_ne reg _ (by decide)]
    cases oldestPair reg Metric.height <;> rfl
  | body_fat_percentage =>
    simp only [metricKeys, List.foldl_cons, List.foldl_nil]
    rw [rebuildOldestStep_getVal_self, rebuildOldestStep_getVal_ne reg _ (by decide),
      rebuildOldestStep_getVal_ne reg _ (by decide)]
    cases oldestPair reg Metric.body_fat_percentage <;> rfl

theorem rebuildOldestItem_getFirst (reg : List Item) (m : Metric) :
    (rebuildOldestItem reg).getFirst m = (oldestPair reg m).map Prod.snd := by
  unfold rebuildOldestItem
  cases m with
  | weight =>
    simp only [metricKeys, List.foldl_cons, List.foldl_nil]
    rw [rebuildOldestStep_getFirst_ne reg _ (by decide), rebuildOldestStep_getFirst_ne reg _ (by decide),
      rebuildOldestStep_getFirst_self]
    cases oldestPair reg Metric.weight <;> rfl
  | height =>
    simp only [metricKeys, List.foldl_cons, List.foldl_nil]
    rw [rebuildOldestStep_getFirst_ne reg _ (by decide), rebuildOldestStep_getFirst_self,
      rebuildOldestStep_getFirst_ne reg _ (by decide)]
    cases oldestPair reg Metric.height <;> rfl
  | body_fat_percentage =>
    simp only [metricKeys, List.foldl_cons, List.foldl_nil]
    rw [rebuildOldestStep_getFirst_self, rebuildOldestStep_getFirst_ne reg _ (by decide),
      rebuildOldestStep_getFirst_ne reg _ (by decide)]
    cases oldestPair reg Metric.body_fat_percentage <;> rfl

theorem rebuildOldestItem_measurementId (reg : List Item) :
    (rebuildOldestItem reg).measurementId = "MEASUREMENT#oldest" :=
  foldl_item_preserve (fun it => it.measurementId) _ (by simp) _ _

theorem rebuildOldestItem_record_type (reg : List Item) :
    (rebuildOldestItem reg).record_type = some "oldest" :=
  foldl_item_preserve (fun it => it.record_type) _ (by simp) _ _

/- ===== Lemmas: the store primitives ===== -/

theorem mem_putItem_subset : ∀ {t : List Item} {it x : Item},
    x ∈ putItem t it → x = it ∨ x ∈ t := by
  intro t
  induction t with
  | nil =>
    intro it x h
    simp [putItem] at h
    exact Or.inl h
  | cons y ys ih =>
    intro it x h
    unfold putItem at h
    split at h
    · rcases List.mem_cons.mp h with rfl | hx
      · exact Or.inl rfl
      · exact Or.inr (List.mem_cons_of_mem _ hx)
    · split at h
      · rcases List.mem_cons.mp h with rfl | hx
        · exact Or.inl rfl
        · exact Or.inr hx
      · rcases List.mem_cons.mp h with rfl | hx
        · exact Or.inr (List.mem_cons_self _ _)
        · rcases ih hx with h' | h'
          · exact Or.inl h'
          · exact Or.inr (List.mem_cons_of_mem _ h')

theorem self_mem_putItem : ∀ (t : List Item) (it : Item), it ∈ putItem t it := by
  intro t
  induction t with
  | nil => intro it; simp [putItem]
  | cons y ys ih =>
    intro it
    unfold putItem
    split
    · exact List.mem_cons_self _ _
    · split
      · exact List.mem_cons_self _ _
      · exact List.mem_cons_of_mem _ (ih it)

theorem getItem_putItem_self : ∀ (t : List Item) (it : Item),
    getItem (putItem t it) it.measurementId = some it := by
  intro t
  induction t with
  | nil => intro it; simp [putItem, getItem, List.find?]
  | cons y ys ih =>
    intro it
    unfold putItem
    split
    · simp [getItem, List.find?]
    · split
      · simp [getItem, List.find?]
      · rename_i hne _
        have : getItem (y :: putItem ys it) it.measurementId = getItem (putItem ys it) it.measurementId := by
          simp only [getItem, List.find?]
          have : (y.measurementId = it.measurementId) = False := by
            simp [hne]
          simp [decide_eq_true_eq, hne]
        rw [this, ih]

theorem getItem_putItem_ne : ∀ (t : List Item) (it : Item) (k : String),
    k ≠ it.measurementId → getItem (putItem t it) k = getItem t k := by
  intro t
  induction t with
  | nil =>
    intro it k h
    have h2 : ¬ (it.measurementId = k) := fun hc => h hc.symm
    simp [putItem, getItem, List.find?, h2]
  | cons y ys ih =>
    intro it k h
    unfold putItem
    split
    · rename_i heq
      simp only [getItem, List.find?]
      have h2 : ¬ (it.measurementId = k) := fun hc => h hc.symm
      have h3 : ¬ (y.measurementId = k) := by
        rw [heq]
        exact h2
      simp [h2, h3]
    · split
      · simp only [getItem, List.find?]
        have h2 : ¬ (it.measurementId = k) := fun hc => h hc.symm
        simp [h2]
      · simp only [getItem, List.find?]
        by_cases hy : y.measurementId = k
        · simp [hy]
        · simp only [hy, decide_False]
          exact ih it k h

theorem getItem_deleteItem_self (t : List Item) (k : String) :
    getItem (deleteItem t k) k = none := by
  apply List.find?_eq_none.mpr
  intro x hx
  have := List.of_mem_filter hx
  simp at this
  simp [this]

theorem getItem_deleteItem_ne : ∀ (t : List Item) (k k' : String),
    k' ≠ k → getItem (deleteItem t k) k' = getItem t k' := by
  intro t
  induction t with
  | nil => intro k k' _; rfl
  | cons y ys ih =>
    intro k k' h
    by_cases hy : y.measurementId = k
    · have hdel : deleteItem (y :: ys) k = deleteItem ys k := by
        simp [deleteItem, List.filter, hy]
      rw [hdel, ih k k' h]
      have hy' : ¬ (y.measurementId = k') := by
        rw [hy]
        exact fun hc => h hc.symm
      simp [getItem, List.find?, hy']
    · have hdel : deleteItem (y :: ys) k = y :: deleteItem ys k := by
        simp [deleteItem, List.filter, hy]
      rw [hdel]
      simp only [getItem, List.find?]
      by_cases hy' : y.measurementId = k'
      · simp [hy']
      · simp only [hy', decide_False]
        exact ih k k' h

theorem find?_putItem_eq (p : Item → Bool) : ∀ (t : List Item) (it : Item),
    p it = false → (∀ r ∈ t, r.measurementId = it.measurementId → p r = false) →
    (putItem t it).find? p = t.find? p := by
  intro t
  induction t with
  | nil =>
    intro it hit _
    simp [putItem, List.find?, hit]
  | cons y ys ih =>
    intro it hit hall
    unfold putItem
    split
    · rename_i heq
      have hy : p y = false := hall y (List.mem_cons_self _ _) heq
      simp [List.find?, hit, hy]
    · split
      · simp [List.find?, hit]
      · simp only [List.find?]
        cases hy : p y
        · exact ih it hit (fun r hr => hall r (List.mem_cons_of_mem _ hr))
        · rfl

theorem isRegularItem_congr {r₁ r₂ : Item} (h : r₁.measurementId = r₂.measurementId) :
    isRegularItem r₁ = isRegularItem r₂ := by
  simp [isRegularItem, h]

theorem regularOf_putItem_not_regular : ∀ (t : List Item) (it : Item),
    isRegularItem it = false → regularOf (putItem t it) = regularOf t := by
  intro t
  induction t with
  | nil =>
    intro it h
    simp [putItem, regularOf, List.filter, h]
  | cons y ys ih =>
    intro it h
    unfold putItem
    split
    · rename_i heq
      have hy : isRegularItem y = false := (isRegularItem_congr heq).trans h
      simp [regularOf, List.filter, h, hy]
    · split
      · simp [regularOf, List.filter, h]
      · have := ih it h
        simp only [regularOf, List.filter] at this ⊢
        cases hy : isRegularItem y <;> simp [hy, this]

theorem regularOf_deleteItem_not_regular (t : List Item) (k : String)
    (h : isRegularId k = false) : regularOf (deleteItem t k) = regularOf t := by
  induction t with
  | nil => rfl
  | cons y ys ih =>
    by_cases hy : y.measurementId = k
    · have hreg : isRegularItem y = false := by
        simp [isRegularItem, hy, h]
      have hdel : deleteItem (y :: ys) k = deleteItem ys k := by
        simp [deleteItem, List.filter, hy]
      rw [hdel, ih]
      simp [regularOf, List.filter, hreg]
    · have hdel : deleteItem (y :: ys) k = y :: deleteItem ys k := by
        simp [deleteItem, List.filter, hy]
      rw [hdel]
      simp only [regularOf, List.filter] at ih ⊢
      cases hreg : isRegularItem y <;> simp [hreg, ih]

/- ===== Lemmas: heads of the stable sorts ===== -/

theorem head_insertionSort_rel {α : Type} (r : α → α → Prop) [DecidableRel r]
    (htrans : ∀ a b c, r a b → r b c → r a c) (htotal : ∀ a b, r a b ∨ r b a)
    {l : List α} {x : α} {rest : List α}
    (h : List.insertionSort r l = x :: rest) :
    x ∈ l ∧ ∀ y ∈ l, r x y := by
  have hperm := List.perm_insertionSort r l
  have hx : x ∈ l := hperm.mem_iff.mp (h ▸ List.mem_cons_self x rest)
  refine ⟨hx, fun y hy => ?_⟩
  have hy' : y ∈ List.insertionSort r l := hperm.mem_iff.mpr hy
  rw [h] at hy'
  rcases List.mem_cons.mp hy' with rfl | hy''
  · exact (htotal y y).elim id id
  · haveI : IsTrans α r := ⟨fun a b c => htrans a b c⟩
    haveI : IsTotal α r := ⟨fun a b => htotal a b⟩
    have hs := List.sorted_insertionSort r l
    rw [h] at hs
    exact (List.sorted_cons.mp hs).1 y hy''

theorem byTimeDesc_trans (a b c : Item) : byTimeDesc a b → byTimeDesc b c → byTimeDesc a c :=
  fun h₁ h₂ => strLe_trans (timeOf c) (timeOf b) (timeOf a) h₂ h₁

theorem byTimeDesc_total (a b : Item) : byTimeDesc a b ∨ byTimeDesc b a :=
  (strLe_total (timeOf b) (timeOf a)).elim Or.inl Or.inr

theorem byTimeAsc_trans (a b c : Item) : byTimeAsc a b → byTimeAsc b c → byTimeAsc a c :=
  fun h₁ h₂ => strLe_trans (timeOf a) (timeOf b) (timeOf c) h₁ h₂

theorem byTimeAsc_total (a b : Item) : byTimeAsc a b ∨ byTimeAsc b a :=
  (strLe_total (timeOf a) (timeOf b)).elim Or.inl Or.inr

theorem latestPair_some_spec {reg : List Item} {m : Metric} {v : ℚ} {tm : String}
    (h : latestPair reg m = some (v, tm)) :
    ∃ r ∈ reg, r.getVal m = some v ∧ timeOf r = tm ∧
      ∀ s ∈ reg, (s.getVal m).isSome = true → strLe (timeOf s) (timeOf r) = true := by
  simp only [latestPair] at h
  cases hs : List.insertionSort byTimeDesc (reg.filter (fun r => (r.getVal m).isSome)) with
  | nil => rw [hs] at h; exact absurd h (by simp)
  | cons x rest =>
    rw [hs] at h
    have hmap : Option.map (fun w => (w, timeOf x)) (x.getVal m) = some (v, tm) := h
    obtain ⟨hx_mem, hx_max⟩ :=
      head_insertionSort_rel byTimeDesc byTimeDesc_trans byTimeDesc_total hs
    obtain ⟨hx_reg, hx_some⟩ := List.mem_filter.mp hx_mem
    cases hv : x.getVal m with
    | none => rw [hv] at hmap; exact absurd hmap (by simp)
    | some v' =>
      rw [hv] at hmap
      simp only [Option.map_some', Option.some.injEq, Prod.mk.injEq] at hmap
      obtain ⟨hv', htm⟩ := hmap
      refine ⟨x, hx_reg, by rw [hv, hv'], htm, fun s hs' hss => ?_⟩
      have hsf : s ∈ reg.filter (fun r => (r.getVal m).isSome) :=
        List.mem_filter.mpr ⟨hs', hss⟩
      exact hx_max s hsf

theorem latestPair_none_spec {reg : List Item} {m : Metric}
    (h : latestPair reg m = none) :
    ∀ r ∈ reg, (r.getVal m).isSome = false := by
  intro r hr
  cases hv : (r.getVal m).isSome
  · rfl
  · exfalso
    have hrf : r ∈ reg.filter (fun r => (r.getVal m).isSome) :=
      List.mem_filter.mpr ⟨hr, hv⟩
    simp only [latestPair] at h
    cases hs : List.insertionSort byTimeDesc (reg.filter (fun r => (r.getVal m).isSome)) with
    | nil =>
      have := (List.perm_insertionSort byTimeDesc
        (reg.filter (fun r => (r.getVal m).isSome))).mem_iff.mpr hrf
      rw [hs] at this
      exact absurd this (List.not_mem_nil r)
    | cons x rest =>
      rw [hs] at h
      have hx_mem := (List.perm_insertionSort byTimeDesc
        (reg.filter (fun r => (r.getVal m).isSome))).mem_iff.mp (hs ▸ List.mem_cons_self x rest)
      obtain ⟨_, hx_some⟩ := List.mem_filter.mp hx_mem
      cases hv' : x.getVal m with
      | none => rw [hv'] at hx_some; exact absurd hx_some (by simp)
      | some v' =>
        have hmap : Option.map (fun w => (w, timeOf x)) (x.getVal m) = none := h
        rw [hv'] at hmap
        exact absurd hmap (by simp)

theorem latestPair_isSome_of_mem {reg : List Item} {m : Metric} {r : Item}
    (hr : r ∈ reg) (hv : (r.getVal m).isSome = true) :
    (latestPair reg m).isSome = true := by
  cases hp : latestPair reg m
  · have := latestPair_none_spec hp r hr
    rw [hv] at this
    exact absurd this (by simp)
  · rfl

theorem oldestPair_some_spec {reg : List Item} {m : Metric} {v : ℚ} {tm : String}
    (h : oldestPair reg m = some (v, tm)) :
    ∃ r ∈ reg, r.getVal m = some v ∧ timeOf r = tm ∧
      ∀ s ∈ reg, (s.getVal m).isSome = true → strLe (timeOf r) (timeOf s) = true := by
  simp only [oldestPair] at h
  cases hs : List.insertionSort byTimeAsc (reg.filter (fun r => (r.getVal m).isSome)) with
  | nil => rw [hs] at h; exact absurd h (by simp)
  | cons x rest =>
    rw [hs] at h
    have hmap : Option.map (fun w => (w, timeOf x)) (x.getVal m) = some (v, tm) := h
    obtain ⟨hx_mem, hx_min⟩ :=
      head_insertionSort_rel byTimeAsc byTimeAsc_trans byTimeAsc_total hs
    obtain ⟨hx_reg, hx_some⟩ := List.mem_filter.mp hx_mem
    cases hv : x.getVal m with
    | none => rw [hv] at hmap; exact absurd hmap (by simp)
    | some v' =>
      rw [hv] at hmap
      simp only [Option.map_some', Option.some.injEq, Prod.mk.injEq] at hmap
      obtain ⟨hv', htm⟩ := hmap
      refine ⟨x, hx_reg, by rw [hv, hv'], htm, fun s hs' hss => ?_⟩
      have hsf : s ∈ reg.filter (fun r => (r.getVal m).isSome) :=
        List.mem_filter.mpr ⟨hs', hss⟩
      exact hx_min s hsf

theorem oldestPair_none_spec {reg : List Item} {m : Metric}
    (h : oldestPair reg m = none) :
    ∀ r ∈ reg, (r.getVal m).isSome = false := by
  intro r hr
  cases hv : (r.getVal m).isSome
  · rfl
  · exfalso
    have hrf : r ∈ reg.filter (fun r => (r.getVal m).isSome) :=
      List.mem_filter.mpr ⟨hr, hv⟩
    simp only [oldestPair] at h
    cases hs : List.insertionSort byTimeAsc (reg.filter (fun r => (r.getVal m).isSome)) with
    | nil =>
      have := (List.perm_insertionSort byTimeAsc
        (reg.filter (fun r => (r.getVal m).isSome))).mem_iff.mpr hrf
      rw [hs] at this
      exact absurd this (List.not_mem_nil r)
    | cons x rest =>
      rw [hs] at h
      have hx_mem := (List.perm_insertionSort byTimeAsc
        (reg.filter (fun r => (r.getVal m).isSome))).mem_iff.mp (hs ▸ List.mem_cons_self x rest)
      obtain ⟨_, hx_some⟩ := List.mem_filter.mp hx_mem
      cases hv' : x.getVal m with
      | none => rw [hv'] at hx_some; exact absurd hx_some (by simp)
      | some v' =>
        have hmap : Option.map (fun w => (w, timeOf x)) (x.getVal m) = none := h
        rw [hv'] at hmap
        exact absurd hmap (by simp)

theorem oldestPair_isSome_of_mem {reg : List Item} {m : Metric} {r : Item}
    (hr : r ∈ reg) (hv : (r.getVal m).isSome = true) :
    (oldestPair reg m).isSome = true := by
  cases hp : oldestPair reg m
  · have := oldestPair_none_spec hp r hr
    rw [hv] at this
    exact absurd this (by simp)
  · rfl

/- ===== Lemmas: the full recomputation ===== -/

theorem hasAnyMetric_iff (r : Item) :
    r.hasAnyMetric = true ↔ ∃ m : Metric, (r.getVal m).isSome = true := by
  constructor
  · intro h
    obtain ⟨m, _, hm⟩ := List.any_eq_true.mp h
    exact ⟨m, hm⟩
  · intro ⟨m, hm⟩
    exact List.any_eq_true.mpr ⟨m, mem_metricKeys m, hm⟩

theorem timesOk_of_regularWF {reg : List Item} (h : regularWF reg) : timesOk reg = true := by
  apply List.all_eq_true.mpr
  intro r hr
  have := (h r hr).2
  simp [this]

theorem hasLatestValues_of_ne_nil {reg : List Item} (hne : reg ≠ [])
    (hWF : regularWF reg) : hasLatestValues reg = true := by
  obtain ⟨r, hr⟩ := List.exists_mem_of_ne_nil reg hne
  obtain ⟨m, hm⟩ := (hasAnyMetric_iff r).mp (hWF r hr).1
  exact List.any_eq_true.mpr ⟨m, mem_metricKeys m, latestPair_isSome_of_mem hr hm⟩

theorem hasOldestValues_of_ne_nil {reg : List Item} (hne : reg ≠ [])
    (hWF : regularWF reg) : hasOldestValues reg = true := by
  obtain ⟨r, hr⟩ := List.exists_mem_of_ne_nil reg hne
  obtain ⟨m, hm⟩ := (hasAnyMetric_iff r).mp (hWF r hr).1
  exact List.any_eq_true.mpr ⟨m, mem_metricKeys m, oldestPair_isSome_of_mem hr hm⟩

theorem rebuildLatestItem_isLatest (reg : List Item) :
    IsLatestOf reg (rebuildLatestItem reg) := by
  intro m
  constructor
  · intro ⟨r, hr, hv⟩
    cases hp : latestPair reg m with
    | none =>
      have := latestPair_none_spec hp r hr
      rw [hv] at this
      exact absurd this (by simp)
    | some p =>
      obtain ⟨v, tm⟩ := p
      obtain ⟨x, hx, hxv, hxt, hxmax⟩ := latestPair_some_spec hp
      refine ⟨x, hx, by simp [hxv], ?_, ?_, hxmax⟩
      · rw [rebuildLatestItem_getVal, hp, hxv]
        rfl
      · rw [rebuildLatestItem_getLast, hp, hxt]
        rfl
  · intro hall
    cases hp : latestPair reg m with
    | none =>
      constructor
      · rw [rebuildLatestItem_getVal, hp]
        rfl
      · rw [rebuildLatestItem_getLast, hp]
        rfl
    | some p =>
      obtain ⟨v, tm⟩ := p
      obtain ⟨x, hx, hxv, _, _⟩ := latestPair_some_spec hp
      have := hall x hx
      rw [hxv] at this
      exact absurd this (by simp)

theorem rebuildOldestItem_isOldest (reg : List Item) :
    IsOldestOf reg (rebuildOldestItem reg) := by
  intro m
  constructor
  · intro ⟨r, hr, hv⟩
    cases hp : oldestPair reg m with
    | none =>
      have := oldestPair_none_spec hp r hr
      rw [hv] at this
      exact absurd this (by simp)
    | some p =>
      obtain ⟨v, tm⟩ := p
      obtain ⟨x, hx, hxv, hxt, hxmin⟩ := oldestPair_some_spec hp
      refine ⟨x, hx, by simp [hxv], ?_, ?_, hxmin⟩
      · rw [rebuildOldestItem_getVal, hp, hxv]
        rfl
      · rw [rebuildOldestItem_getFirst, hp, hxt]
        rfl
  · intro hall
    cases hp : oldestPair reg m with
    | none =>
      constructor
      · rw [rebuildOldestItem_getVal, hp]
        rfl
      · rw [rebuildOldestItem_getFirst, hp]
        rfl
    | some p =>
      obtain ⟨v, tm⟩ := p
      obtain ⟨x, hx, hxv, _, _⟩ := oldestPair_some_spec hp
      have := hall x hx
      rw [hxv] at this
      exact absurd this (by simp)

theorem recalcLatestFull_eq_put (t : List Item) (hne : regularOf t ≠ [])
    (hWF : regularWF (regularOf t)) :
    recalcLatestFull t = putItem t (rebuildLatestItem (regularOf t)) := by
  unfold recalcLatestFull get_all_user_measurements
  rw [if_neg (by simp [List.isEmpty_iff, hne]),
    if_pos (timesOk_of_regularWF hWF),
    if_pos (hasLatestValues_of_ne_nil hne hWF)]

theorem recalcOldestFull_eq_put (t : List Item) (hne : regularOf t ≠ [])
    (hWF : regularWF (regularOf t)) :
    recalcOldestFull t = putItem t (rebuildOldestItem (regularOf t)) := by
  unfold recalcOldestFull get_all_user_measurements
  rw [if_neg (by simp [List.isEmpty_iff, hne]),
    if_pos (timesOk_of_regularWF hWF),
    if_pos (hasOldestValues_of_ne_nil hne hWF)]

theorem recalcLatestFull_empty (t : List Item) (h : regularOf t = []) :
    recalcLatestFull t = deleteItem t "MEASUREMENT#latest" := by
  unfold recalcLatestFull get_all_user_measurements
  rw [if_pos (by simp [List.isEmpty_iff, h])]

theorem recalcOldestFull_empty (t : List Item) (h : regularOf t = []) :
    recalcOldestFull t = deleteItem t "MEASUREMENT#oldest" := by
  unfold recalcOldestFull get_all_user_measurements
  rw [if_pos (by simp [List.isEmpty_iff, h])]

theorem regularOf_recalcLatestFull (t : List Item) :
    regularOf (recalcLatestFull t) = regularOf t := by
  simp only [recalcLatestFull, get_all_user_measurements]
  split
  · exact regularOf_deleteItem_not_regular t _ (by decide)
  · split
    · split
      · apply regularOf_putItem_not_regular
        rw [isRegularItem, rebuildLatestItem_measurementId]
        decide
      · rfl
    · rfl

theorem regularOf_recalcOldestFull (t : List Item) :
    regularOf (recalcOldestFull t) = regularOf t := by
  simp only [recalcOldestFull, get_all_user_measurements]
  split
  · exact regularOf_deleteItem_not_regular t _ (by decide)
  · split
    · split
      · apply regularOf_putItem_not_regular
        rw [isRegularItem, rebuildOldestItem_measurementId]
        decide
      · rfl
    · rfl

theorem getItem_recalcLatestFull_ne (t : List Item) (k : String)
    (h : k ≠ "MEASUREMENT#latest") :
    getItem (recalcLatestFull t) k = getItem t k := by
  simp only [recalcLatestFull, get_all_user_measurements]
  split
  · exact getItem_deleteItem_ne t _ k h
  · split
    · split
      · apply getItem_putItem_ne
        rw [rebuildLatestItem_measurementId]
        exact h
      · rfl
    · rfl

theorem getItem_recalcOldestFull_ne (t : List Item) (k : String)
    (h : k ≠ "MEASUREMENT#oldest") :
    getItem (recalcOldestFull t) k = getItem t k := by
  simp only [recalcOldestFull, get_all_user_measurements]
  split
  · exact getItem_deleteItem_ne t _ k h
  · split
    · split
      · apply getItem_putItem_ne
        rw [rebuildOldestItem_measurementId]
        exact h
      · rfl
    · rfl

/- ===== Lemmas: reduced forms of the operations ===== -/

theorem add_body_measurement_run (t : List Item) (p : AddParams) (now : String) (fault : Bool)
    (h1 : (⟨p.weight, p.height, p.body_fat_percentage⟩ : MeasData).isEmpty = false)
    (h2 : validate_measurement_values ⟨p.weight, p.height, p.body_fat_percentage⟩ = []) :
    add_body_measurement t p now fault =
      ((if fault then
          putItem t
            { measurementId := "MEASUREMENT#" ++ effectiveTime p now,
              weight := p.weight, height := p.height, body_fat_percentage := p.body_fat_percentage,
              measurement_time := some (effectiveTime p now) }
        else
          update_latest_oldest_records
            (putItem t
              { measurementId := "MEASUREMENT#" ++ effectiveTime p now,
                weight := p.weight, height := p.height, body_fat_percentage := p.body_fat_percentage,
                measurement_time := some (effectiveTime p now) })
            ⟨p.weight, p.height, p.body_fat_percentage⟩ (effectiveTime p now)),
       { success := true, measurementId := some (effectiveTime p now),
         measurementTime := some (effectiveTime p now) }) := by
  simp only [add_body_measurement]
  rw [if_neg (by simp [h1]), if_neg (by simp [h2])]

theorem update_body_measurement_run (t : List Item) (p : UpdateParams) (fault : Bool)
    (mid : String) (ex : Item)
    (hmid : p.measurement_id = some mid) (hne : ¬ (mid = ""))
    (h1 : (⟨p.weight, p.height, p.body_fat_percentage⟩ : MeasData).isEmpty = false)
    (h2 : validate_measurement_values ⟨p.weight, p.height, p.body_fat_percentage⟩ = [])
    (hex : getItem t ("MEASUREMENT#" ++ mid) = some ex) :
    update_body_measurement t p fault =
      ((if fault then putItem t (mergeUpdate ex ⟨p.weight, p.height, p.body_fat_percentage⟩)
        else recalculate_latest_record_after_update
          (putItem t (mergeUpdate ex ⟨p.weight, p.height, p.body_fat_percentage⟩))),
       { success := true, measurementId := some mid }) := by
  simp only [update_body_measurement, hmid]
  rw [if_neg hne, if_neg (by simp [h1]), if_neg (by simp [h2]), hex]

theorem delete_body_measurement_run (t : List Item) (p : DeleteParams) (fault : Bool)
    (mid : String) (ex : Item)
    (hmid : p.measurement_id = some mid) (hne : ¬ (mid = ""))
    (hex : getItem t ("MEASUREMENT#" ++ mid) = some ex) :
    delete_body_measurement t p fault =
      ((if fault then deleteItem t ("MEASUREMENT#" ++ mid)
        else recalculate_oldest_record_after_deletion
          (recalculate_latest_record_after_deletion (deleteItem t ("MEASUREMENT#" ++ mid)))),
       { success := true, deletedMeasurementId := some mid }) := by
  simp only [delete_body_measurement, hmid]
  rw [if_neg hne, hex]

/-- C6: for every add, update or delete whose primary write to the Measurement
Store succeeds (its validation and existence checks pass), any error raised
during the secondary Latest/Oldest maintenance (modelled by `fault = true`) is
caught and the operation still reports success to the caller. -/
theorem C6_maintenance_failure_swallowed
    (t : List Item) (pa : AddParams) (pu : UpdateParams) (pd : DeleteParams)
    (now : String) (fault : Bool)
    (ha : (⟨pa.weight, pa.height, pa.body_fat_percentage⟩ : MeasData).isEmpty = false ∧
          validate_measurement_values ⟨pa.weight, pa.height, pa.body_fat_percentage⟩ = [])
    (hu : ∃ mid ex, pu.measurement_id = some mid ∧ ¬ (mid = "") ∧
          (⟨pu.weight, pu.height, pu.body_fat_percentage⟩ : MeasData).isEmpty = false ∧
          validate_measurement_values ⟨pu.weight, pu.height, pu.body_fat_percentage⟩ = [] ∧
          getItem t ("MEASUREMENT#" ++ mid) = some ex)
    (hd : ∃ mid ex, pd.measurement_id = some mid ∧ ¬ (mid = "") ∧
          getItem t ("MEASUREMENT#" ++ mid) = some ex) :
    (add_body_measurement t pa now fault).2.success = true ∧
    (update_body_measurement t pu fault).2.success = true ∧
    (delete_body_measurement t pd fault).2.success = true := by
  obtain ⟨midu, exu, hmidu, hneu, h1u, h2u, hexu⟩ := hu
  obtain ⟨midd, exd, hmidd, hned, hexd⟩ := hd
  refine ⟨?_, ?_, ?_⟩
  · rw [add_body_measurement_run t pa now fault ha.1 ha.2]
  · rw [update_body_measurement_run t pu fault midu exu hmidu hneu h1u h2u hexu]
  · rw [delete_body_measurement_run t pd fault midd exd hmidd hned hexd]

/-- C6 witness: a concrete add, update and delete on a one-record store, with
the maintenance fault injected, all still report success. -/
theorem C6_maintenance_failure_swallowed_witness :
    ((add_body_measurement
        [{ measurementId := "MEASUREMENT#2024-01-01", weight := some 65,
           measurement_time := some "2024-01-01" }]
        { weight := some 70 } "2024-02-02" true).2.success = true ∧
      (update_body_measurement
        [{ measurementId := "MEASUREMENT#2024-01-01", weight := some 65,
           measurement_time := some "2024-01-01" }]
        { measurement_id := some "2024-01-01", weight := some 71 } true).2.success = true ∧
      (delete_body_measurement
        [{ measurementId := "MEASUREMENT#2024-01-01", weight := some 65,
           measurement_time := some "2024-01-01" }]
        { measurement_id := some "2024-01-01" } true).2.success = true) :=
  C6_maintenance_failure_swallowed
    [{ measurementId := "MEASUREMENT#2024-01-01", weight := some 65,
       measurement_time := some "2024-01-01" }]
    { weight := some 70 }
    { measurement_id := some "2024-01-01", weight := some 71 }
    { measurement_id := some "2024-01-01" }
    "2024-02-02" true
    (by constructor <;> decide)
    ⟨"2024-01-01",
      { measurementId := "MEASUREMENT#2024-01-01", weight := some 65,
        measurement_time := some "2024-01-01" },
      rfl, by decide, by decide, by decide, by decide⟩
    ⟨"2024-01-01",
      { measurementId := "MEASUREMENT#2024-01-01", weight := some 65,
        measurement_time := some "2024-01-01" },
      rfl, by decide, by decide⟩

/-- C8: an UpdateBodyMeasurement or DeleteBodyMeasurement whose
`measurement_id` does not name an existing record of the caller returns a
ValidationError result (success = false) and leaves the whole store — regular
records and both SummaryRecords — unchanged. -/
theorem C8_not_found_is_validation_error_no_write
    (t : List Item) (pu : UpdateParams) (pd : DeleteParams) (fault : Bool)
    (hu : ∀ mid, pu.measurement_id = some mid → getItem t ("MEASUREMENT#" ++ mid) = none)
    (hd : ∀ mid, pd.measurement_id = some mid → getItem t ("MEASUREMENT#" ++ mid) = none) :
    ((update_body_measurement t pu fault).1 = t ∧
      (update_body_measurement t pu fault).2.success = false ∧
      (update_body_measurement t pu fault).2.errorType = some "ValidationError") ∧
    ((delete_body_measurement t pd fault).1 = t ∧
      (delete_body_measurement t pd fault).2.success = false ∧
      (delete_body_measurement t pd fault).2.errorType = some "ValidationError") := by
  constructor
  · cases hmid : pu.measurement_id with
    | none => simp [update_body_measurement, hmid]
    | some mid =>
      by_cases hne : mid = ""
      · simp [update_body_measurement, hmid, hne]
      · by_cases h1 : (⟨pu.weight, pu.height, pu.body_fat_percentage⟩ : MeasData).isEmpty = true
        · simp [update_body_measurement, hmid, hne, h1]
        · by_cases h2 : validate_measurement_values ⟨pu.weight, pu.height, pu.body_fat_percentage⟩ = []
          · simp [update_body_measurement, hmid, hne, h1, h2, hu mid hmid]
          · simp [update_body_measurement, hmid, hne, h1, h2]
  · cases hmid : pd.measurement_id with
    | none => simp [delete_body_measurement, hmid]
    | some mid =>
      by_cases hne : mid = ""
      · simp [delete_body_measurement, hmid, hne]
      · simp [delete_body_measurement, hmid, hne, hd mid hmid]

/-- C8 witness: updating and deleting a missing id on a one-record store is a
ValidationError and leaves the store unchanged. -/
theorem C8_not_found_is_validation_error_no_write_witness :
    ((update_body_measurement
        [{ measurementId := "MEASUREMENT#2024-01-01", weight := some 65,
           measurement_time := some "2024-01-01" }]
        { measurement_id := some "2024-09-09", weight := some 71 } false).1 =
      [{ measurementId := "MEASUREMENT#2024-01-01", weight := some 65,
         measurement_time := some "2024-01-01" }] ∧
      (update_body_measurement
        [{ measurementId := "MEASUREMENT#2024-01-01", weight := some 65,
           measurement_time := some "2024-01-01" }]
        { measurement_id := some "2024-09-09", weight := some 71 } false).2.success = false ∧
      (update_body_measurement
        [{ measurementId := "MEASUREMENT#2024-01-01", weight := some 65,
           measurement_time := some "2024-01-01" }]
        { measurement_id := some "2024-09-09", weight := some 71 } false).2.errorType =
        some "ValidationError") ∧
    ((delete_body_measurement
        [{ measurementId := "MEASUREMENT#2024-01-01", weight := some 65,
           measurement_time := some "2024-01-01" }]
        { measurement_id := some "2024-09-09" } false).1 =
      [{ measurementId := "MEASUREMENT#2024-01-01", weight := some 65,
         measurement_time := some "2024-01-01" }] ∧
      (delete_body_measurement
        [{ measurementId := "MEASUREMENT#2024-01-01", weight := some 65,
           measurement_time := some "2024-01-01" }]
        { measurement_id := some "2024-09-09" } false).2.success = false ∧
      (delete_body_measurement
        [{ measurementId := "MEASUREMENT#2024-01-01", weight := some 65,
           measurement_time := some "2024-01-01" }]
        { measurement_id := some "2024-09-09" } false).2.errorType =
        some "ValidationError") :=
  C8_not_found_is_validation_error_no_write
    [{ measurementId := "MEASUREMENT#2024-01-01", weight := some 65,
       measurement_time := some "2024-01-01" }]
    { measurement_id := some "2024-09-09", weight := some 71 }
    { measurement_id := some "2024-09-09" } false
    (by intro mid h; cases h; decide)
    (by intro mid h; cases h; decide)

/- ===== Lemmas: validation ===== -/

theorem measData_isEmpty_iff (w h b : Option ℚ) :
    (⟨w, h, b⟩ : MeasData).isEmpty = true ↔ w = none ∧ h = none ∧ b = none := by
  cases w <;> cases h <;> cases b <;> simp [MeasData.isEmpty]

theorem validate_ne_nil_iff (w h b : Option ℚ) :
    validate_measurement_values ⟨w, h, b⟩ ≠ [] ↔
      ((∃ x, w = some x ∧ (x ≤ 0 ∨ x > 1000)) ∨
        (∃ x, h = some x ∧ (x < 50 ∨ x > 300)) ∨
        (∃ x, b = some x ∧ (x < 0 ∨ x > 100))) := by
  have hw : (match w with
      | some x => if x ≤ 0 ∨ x > 1000 then ["weight must be in range 1-1000kg"] else []
      | none => ([] : List String)) ≠ [] ↔ ∃ x, w = some x ∧ (x ≤ 0 ∨ x > 1000) := by
    cases w with
    | none => simp
    | some x => by_cases c : x ≤ 0 ∨ x > 1000 <;> simp [c]
  have hh : (match h with
      | some x => if x < 50 ∨ x > 300 then ["height must be in range 50-300cm"] else []
      | none => ([] : List String)) ≠ [] ↔ ∃ x, h = some x ∧ (x < 50 ∨ x > 300) := by
    cases h with
    | none => simp
    | some x => by_cases c : x < 50 ∨ x > 300 <;> simp [c]
  have hb : (match b with
      | some x => if x < 0 ∨ x > 100 then ["body fat percentage must be in range 0-100"] else []
      | none => ([] : List String)) ≠ [] ↔ ∃ x, b = some x ∧ (x < 0 ∨ x > 100) := by
    cases b with
    | none => simp
    | some x => by_cases c : x < 0 ∨ x > 100 <;> simp [c]
  unfold validate_measurement_values
  dsimp only
  rw [Ne, List.append_eq_nil, List.append_eq_nil, not_and_or, not_and_or, or_assoc]
  exact or_congr hw (or_congr hh hb)

theorem invalid_iff (w h b : Option ℚ) :
    ((⟨w, h, b⟩ : MeasData).isEmpty = true ∨
      validate_measurement_values ⟨w, h, b⟩ ≠ []) ↔
      ((w = none ∧ h = none ∧ b = none) ∨
        (∃ x, w = some x ∧ (x ≤ 0 ∨ x > 1000)) ∨
        (∃ x, h = some x ∧ (x < 50 ∨ x > 300)) ∨
        (∃ x, b = some x ∧ (x < 0 ∨ x > 100))) :=
  or_congr (measData_isEmpty_iff w h b) (validate_ne_nil_iff w h b)

theorem add_error_iff (t : List Item) (p : AddParams) (now : String) (fault : Bool) :
    (add_body_measurement t p now fault).2.errorType = some "ValidationError" ↔
      ((⟨p.weight, p.height, p.body_fat_percentage⟩ : MeasData).isEmpty = true ∨
        validate_measurement_values ⟨p.weight, p.height, p.body_fat_percentage⟩ ≠ []) := by
  by_cases h1 : (⟨p.weight, p.height, p.body_fat_percentage⟩ : MeasData).isEmpty = true
  · simp [add_body_measurement, h1]
  · by_cases h2 : validate_measurement_values ⟨p.weight, p.height, p.body_fat_percentage⟩ = []
    · rw [add_body_measurement_run t p now fault (Bool.eq_false_iff.mpr h1) h2]
      simp [h1, h2]
    · simp [add_body_measurement, h1, h2]

theorem add_error_no_write (t : List Item) (p : AddParams) (now : String) (fault : Bool)
    (h : (add_body_measurement t p now fault).2.errorType = some "ValidationError") :
    (add_body_measurement t p now fault).1 = t := by
  have := (add_error_iff t p now fault).mp h
  rcases this with h1 | h2
  · simp [add_body_measurement, h1]
  · by_cases h1 : (⟨p.weight, p.height, p.body_fat_percentage⟩ : MeasData).isEmpty = true
    · simp [add_body_measurement, h1]
    · simp [add_body_measurement, h1, h2]

theorem update_error_iff (t : List Item) (q : UpdateParams) (fault : Bool)
    (mid : String) (hmid : q.measurement_id = some mid) (hne : ¬ (mid = "")) :
    (update_body_measurement t q fault).2.errorType = some "ValidationError" ↔
      ((⟨q.weight, q.height, q.body_fat_percentage⟩ : MeasData).isEmpty = true ∨
        validate_measurement_values ⟨q.weight, q.height, q.body_fat_percentage⟩ ≠ [] ∨
        getItem t ("MEASUREMENT#" ++ mid) = none) := by
  by_cases h1 : (⟨q.weight, q.height, q.body_fat_percentage⟩ : MeasData).isEmpty = true
  · simp [update_body_measurement, hmid, hne, h1]
  · by_cases h2 : validate_measurement_values ⟨q.weight, q.height, q.body_fat_percentage⟩ = []
    · cases hg : getItem t ("MEASUREMENT#" ++ mid) with
      | none => simp [update_body_measurement, hmid, hne, h1, h2, hg]
      | some ex =>
        rw [update_body_measurement_run t q fault mid ex hmid hne (Bool.eq_false_iff.mpr h1) h2 hg]
        simp [h1, h2, hg]
    · simp [update_body_measurement, hmid, hne, h1, h2]

theorem update_error_no_write (t : List Item) (q : UpdateParams) (fault : Bool)
    (mid : String) (hmid : q.measurement_id = some mid) (hne : ¬ (mid = ""))
    (h : (update_body_measurement t q fault).2.errorType = some "ValidationError") :
    (update_body_measurement t q fault).1 = t := by
  have hiff := (update_error_iff t q fault mid hmid hne).mp h
  by_cases h1 : (⟨q.weight, q.height, q.body_fat_percentage⟩ : MeasData).isEmpty = true
  · simp [update_body_measurement, hmid, hne, h1]
  · by_cases h2 : validate_measurement_values ⟨q.weight, q.height, q.body_fat_percentage⟩ = []
    · have hg : getItem t ("MEASUREMENT#" ++ mid) = none := by tauto
      simp [update_body_measurement, hmid, hne, h1, h2, hg]
    · simp [update_body_measurement, hmid, hne, h1, h2]

/-- C7 counterexample: the claim's iff fails at weight = 1/2.  The value lies
outside the claimed allowed range 1-1000 (it is below 1), yet
AddBodyMeasurement accepts it without a validation error, because the code's
check is `weight <= 0 or weight > 1000` — the lower bound is an exclusive 0,
not an inclusive 1. -/
theorem C7_counterexample_fractional_weight :
    (add_body_measurement [] { weight := some ((1 : ℚ)/2) } "2024-01-01T00:00:00" false).2.success
        = true ∧
    (add_body_measurement [] { weight := some ((1 : ℚ)/2) } "2024-01-01T00:00:00" false).2.errorType
        = none ∧
    ((1 : ℚ)/2 < 1 ∧ 0 < (1 : ℚ)/2) := by
  have h2 : validate_measurement_values ⟨some ((1 : ℚ)/2), none, none⟩ = [] := by
    unfold validate_measurement_values
    dsimp only
    rw [if_neg (by norm_num)]
    rfl
  have hrun := add_body_measurement_run [] { weight := some ((1 : ℚ)/2) }
    "2024-01-01T00:00:00" false rfl h2
  refine ⟨?_, ?_, by norm_num, by norm_num⟩
  · rw [hrun]
  · rw [hrun]

/-- C7 (amended): for AddBodyMeasurement, a ValidationError is returned iff no
metric is provided or a provided value is out of the code's ranges — weight in
(0, 1000] (lower bound exclusive at 0, not inclusive at 1), height in [50, 300],
body fat in [0, 100]; for UpdateBodyMeasurement likewise, with "target record
not found" as the additional error source; no write occurs on rejection.  All
the integer boundary cases listed in the claim behave as it states. -/
theorem C7_amended_validation_ranges
    (t : List Item) (p : AddParams) (q : UpdateParams) (now : String) (fault : Bool)
    (mid : String) (hmid : q.measurement_id = some mid) (hne : ¬ (mid = "")) :
    ((add_body_measurement t p now fault).2.errorType = some "ValidationError" ↔
      ((p.weight = none ∧ p.height = none ∧ p.body_fat_percentage = none) ∨
        (∃ x, p.weight = some x ∧ (x ≤ 0 ∨ x > 1000)) ∨
        (∃ x, p.height = some x ∧ (x < 50 ∨ x > 300)) ∨
        (∃ x, p.body_fat_percentage = some x ∧ (x < 0 ∨ x > 100)))) ∧
    ((add_body_measurement t p now fault).2.errorType = some "ValidationError" →
      (add_body_measurement t p now fault).1 = t) ∧
    ((update_body_measurement t q fault).2.errorType = some "ValidationError" ↔
      ((q.weight = none ∧ q.height = none ∧ q.body_fat_percentage = none) ∨
        (∃ x, q.weight = some x ∧ (x ≤ 0 ∨ x > 1000)) ∨
        (∃ x, q.height = some x ∧ (x < 50 ∨ x > 300)) ∨
        (∃ x, q.body_fat_percentage = some x ∧ (x < 0 ∨ x > 100)) ∨
        getItem t ("MEASUREMENT#" ++ mid) = none)) ∧
    ((update_body_measurement t q fault).2.errorType = some "ValidationError" →
      (update_body_measurement t q fault).1 = t) := by
  refine ⟨?_, add_error_no_write t p now fault, ?_, update_error_no_write t q fault mid hmid hne⟩
  · rw [add_error_iff]
    exact invalid_iff p.weight p.height p.body_fat_percentage
  · rw [update_error_iff t q fault mid hmid hne,
      measData_isEmpty_iff q.weight q.height q.body_fat_percentage,
      validate_ne_nil_iff q.weight q.height q.body_fat_percentage]
    simp only [or_assoc]

/-- C7 witness: weight = 0 is rejected by add; an update naming a missing
record on an empty store is rejected; both leave the store unchanged. -/
theorem C7_amended_validation_ranges_witness :
    (add_body_measurement [] { weight := some 0 } "2024-01-01" false).2.errorType
        = some "ValidationError" ∧
    (add_body_measurement [] { weight := some 0 } "2024-01-01" false).1 = [] ∧
    (update_body_measurement [] { measurement_id := some "2024-01-01", weight := some 1000 }
        false).2.errorType = some "ValidationError" := by
  have h := C7_amended_validation_ranges [] { weight := some 0 }
    { measurement_id := some "2024-01-01", weight := some 1000 }
    "2024-01-01" false "2024-01-01" rfl (by decide)
  have ha : (add_body_measurement [] { weight := some 0 } "2024-01-01" false).2.errorType
      = some "ValidationError" :=
    h.1.mpr (Or.inr (Or.inl ⟨0, rfl, Or.inl (le_refl 0)⟩))
  exact ⟨ha, h.2.1 ha, h.2.2.1.mpr (Or.inr (Or.inr (Or.inr (Or.inr rfl))))⟩

/- ===== Lemmas: the first-measurement special case ===== -/

theorem handle_first_spec (t1 : List Item) (md : MeasData) (mt : String) :
    ∃ L O,
      getItem (handle_first_measurement t1 md mt) "MEASUREMENT#latest" = some L ∧
      getItem (handle_first_measurement t1 md mt) "MEASUREMENT#oldest" = some O ∧
      ∀ m : Metric,
        L.getVal m = md.get m ∧ O.getVal m = md.get m ∧
        L.getLast m = (if (md.get m).isSome then some mt else none) ∧
        O.getFirst m = (if (md.get m).isSome then some mt else none) := by
  simp only [handle_first_measurement]
  have hLid : (metricKeys.foldl (stampLast md mt)
      { measurementId := "MEASUREMENT#latest", record_type := some "latest",
        weight := md.weight, height := md.height, body_fat_percentage := md.body_fat_percentage,
        measurement_time := some mt } : Item).measurementId = "MEASUREMENT#latest" :=
    (foldl_stampLast_measurementId md mt _).trans rfl
  have hOid : (metricKeys.foldl (stampFirst md mt)
      { measurementId := "MEASUREMENT#oldest", record_type := some "oldest",
        weight := md.weight, height := md.height, body_fat_percentage := md.body_fat_percentage,
        measurement_time := some mt } : Item).measurementId = "MEASUREMENT#oldest" :=
    (foldl_stampFirst_measurementId md mt _).trans rfl
  have hgetL2 := getItem_putItem_self t1 (metricKeys.foldl (stampLast md mt)
    { measurementId := "MEASUREMENT#latest", record_type := some "latest",
      weight := md.weight, height := md.height, body_fat_percentage := md.body_fat_percentage,
      measurement_time := some mt })
  rw [hLid] at hgetL2
  have hgetO := getItem_putItem_self
    (putItem t1 (metricKeys.foldl (stampLast md mt)
      { measurementId := "MEASUREMENT#latest", record_type := some "latest",
        weight := md.weight, height := md.height, body_fat_percentage := md.body_fat_percentage,
        measurement_time := some mt }))
    (metricKeys.foldl (stampFirst md mt)
      { measurementId := "MEASUREMENT#oldest", record_type := some "oldest",
        weight := md.weight, height := md.height, body_fat_percentage := md.body_fat_percentage,
        measurement_time := some mt })
  rw [hOid] at hgetO
  have hgetL : getItem
      (putItem (putItem t1 (metricKeys.foldl (stampLast md mt)
        { measurementId := "MEASUREMENT#latest", record_type := some "latest",
          weight := md.weight, height := md.height, body_fat_percentage := md.body_fat_percentage,
          measurement_time := some mt }))
       (metricKeys.foldl (stampFirst md mt)
        { measurementId := "MEASUREMENT#oldest", record_type := some "oldest",
          weight := md.weight, height := md.height, body_fat_percentage := md.body_fat_percentage,
          measurement_time := some mt }))
      "MEASUREMENT#latest" = some (metricKeys.foldl (stampLast md mt)
        { measurementId := "MEASUREMENT#latest", record_type := some "latest",
          weight := md.weight, height := md.height, body_fat_percentage := md.body_fat_percentage,
          measurement_time := some mt }) := by
    rw [getItem_putItem_ne _ _ _ (by rw [hOid]; decide)]
    exact hgetL2
  refine ⟨_, _, hgetL, hgetO, ?_⟩
  intro m
  refine ⟨?_, ?_, ?_, ?_⟩
  · rw [foldl_stampLast_getVal]
    cases m <;> rfl
  · rw [foldl_stampFirst_getVal]
    cases m <;> rfl
  · rw [foldl_stampLast_getLast]
    cases m <;> rfl
  · rw [foldl_stampFirst_getFirst]
    cases m <;> rfl

/-- C2: when the added record is the only regular record after the write (the
count of non-summary records is at most 1), both Latest and Oldest are written
as direct clones of the record's metric values, `last_<metric>_update` and
`first_<metric>_record` are both set to its measurement time for each metric
present, and Latest and Oldest agree on every metric value. -/
theorem C2_singleton_add_clones_summaries
    (t : List Item) (p : AddParams) (now : String)
    (h1 : (⟨p.weight, p.height, p.body_fat_percentage⟩ : MeasData).isEmpty = false)
    (h2 : validate_measurement_values ⟨p.weight, p.height, p.body_fat_percentage⟩ = [])
    (hfirst : (regularOf (putItem t
        { measurementId := "MEASUREMENT#" ++ effectiveTime p now,
          weight := p.weight, height := p.height, body_fat_percentage := p.body_fat_percentage,
          measurement_time := some (effectiveTime p now) })).length ≤ 1) :
    ∃ L O,
      getItem (add_body_measurement t p now false).1 "MEASUREMENT#latest" = some L ∧
      getItem (add_body_measurement t p now false).1 "MEASUREMENT#oldest" = some O ∧
      ∀ m : Metric,
        L.getVal m = MeasData.get ⟨p.weight, p.height, p.body_fat_percentage⟩ m ∧
        O.getVal m = MeasData.get ⟨p.weight, p.height, p.body_fat_percentage⟩ m ∧
        L.getVal m = O.getVal m ∧
        L.getLast m = (if (MeasData.get ⟨p.weight, p.height, p.body_fat_percentage⟩ m).isSome
          then some (effectiveTime p now) else none) ∧
        O.getFirst m = (if (MeasData.get ⟨p.weight, p.height, p.body_fat_percentage⟩ m).isSome
          then some (effectiveTime p now) else none) := by
  rw [add_body_measurement_run t p now false h1 h2]
  simp only [if_neg Bool.false_ne_true]
  rw [update_latest_oldest_records]
  simp only [get_all_user_measurements]
  rw [if_pos hfirst]
  obtain ⟨L, O, hL, hO, hm⟩ := handle_first_spec
    (putItem t
      { measurementId := "MEASUREMENT#" ++ effectiveTime p now,
        weight := p.weight, height := p.height, body_fat_percentage := p.body_fat_percentage,
        measurement_time := some (effectiveTime p now) })
    ⟨p.weight, p.height, p.body_fat_percentage⟩ (effectiveTime p now)
  refine ⟨L, O, hL, hO, fun m => ?_⟩
  obtain ⟨hv1, hv2, hl, hf⟩ := hm m
  exact ⟨hv1, hv2, hv1.trans hv2.symm, hl, hf⟩

/-- C2 witness: adding weight 65 to an empty store yields Latest and Oldest
clones. -/
theorem C2_singleton_add_clones_summaries_witness :
    ∃ L O,
      getItem (add_body_measurement [] { weight := some 65, measurement_time := some "2024-01-01" }
        "now" false).1 "MEASUREMENT#latest" = some L ∧
      getItem (add_body_measurement [] { weight := some 65, measurement_time := some "2024-01-01" }
        "now" false).1 "MEASUREMENT#oldest" = some O ∧
      ∀ m : Metric,
        L.getVal m = MeasData.get ⟨some 65, none, none⟩ m ∧
        O.getVal m = MeasData.get ⟨some 65, none, none⟩ m ∧
        L.getVal m = O.getVal m ∧
        L.getLast m = (if (MeasData.get ⟨some 65, none, none⟩ m).isSome
          then some (effectiveTime { weight := some 65, measurement_time := some "2024-01-01" } "now")
          else none) ∧
        O.getFirst m = (if (MeasData.get ⟨some 65, none, none⟩ m).isSome
          then some (effectiveTime { weight := some 65, measurement_time := some "2024-01-01" } "now")
          else none) :=
  C2_singleton_add_clones_summaries [] { weight := some 65, measurement_time := some "2024-01-01" }
    "now" (by decide) (by decide) (by decide)

/- ===== Lemmas: sentinel bookkeeping ===== -/

theorem ne_latestKey_of_regular {k : String} (h : isRegularId k = true) :
    k ≠ "MEASUREMENT#latest" := by
  intro e
  rw [e] at h
  exact absurd h (by decide)

theorem ne_oldestKey_of_regular {k : String} (h : isRegularId k = true) :
    k ≠ "MEASUREMENT#oldest" := by
  intro e
  rw [e] at h
  exact absurd h (by decide)

theorem sentinelWF_putItem {t : List Item} {it : Item} (h : sentinelWF t)
    (hit : (it.record_type = some "latest" ↔ it.measurementId = "MEASUREMENT#latest") ∧
      (it.record_type = some "oldest" ↔ it.measurementId = "MEASUREMENT#oldest")) :
    sentinelWF (putItem t it) := by
  intro r hr
  rcases mem_putItem_subset hr with rfl | hr'
  · exact hit
  · exact h r hr'

theorem findByRecordType_putItem (t : List Item) (it : Item) (rt : String)
    (hit : ¬ (it.record_type = some rt))
    (hall : ∀ r ∈ t, r.measurementId = it.measurementId → ¬ (r.record_type = some rt)) :
    findByRecordType (putItem t it) rt = findByRecordType t rt := by
  unfold findByRecordType
  apply find?_putItem_eq
  · simp [hit]
  · intro r hr he
    simp [hall r hr he]

theorem findByRecordType_some {t : List Item} {rt : String} {r : Item}
    (h : findByRecordType t rt = some r) : r ∈ t ∧ r.record_type = some rt := by
  unfold findByRecordType at h
  have h1 := List.mem_of_find?_eq_some h
  have h2 := List.find?_some h
  exact ⟨h1, of_decide_eq_true h2⟩

/- ===== Lemmas: the incremental add path ===== -/

theorem update_latest_record_result (t2 : List Item) (md : MeasData) (mt : String)
    (hcase : ∀ cur : Item, findByRecordType t2 "latest" = some cur →
      cur.measurementId = "MEASUREMENT#latest" ∧ cur.record_type = some "latest") :
    ∃ X, update_latest_record t2 md mt = putItem t2 X ∧
      X.measurementId = "MEASUREMENT#latest" ∧ X.record_type = some "latest" ∧
      ∀ m v, md.get m = some v → X.getVal m = some v ∧ X.getLast m = some mt := by
  cases hf : findByRecordType t2 "latest" with
  | none =>
    refine ⟨metricKeys.foldl (stampLast md mt)
      { measurementId := "MEASUREMENT#latest", record_type := some "latest",
        weight := md.weight, height := md.height, body_fat_percentage := md.body_fat_percentage },
      by simp only [update_latest_record, hf], ?_, ?_, ?_⟩
    · exact (foldl_stampLast_measurementId md mt _).trans rfl
    · exact (foldl_stampLast_record_type md mt _).trans rfl
    · intro m v hv
      constructor
      · rw [foldl_stampLast_getVal]
        cases m <;> exact hv
      · rw [foldl_stampLast_getLast, if_pos (by rw [hv]; rfl)]
  | some cur =>
    obtain ⟨hid, hrt⟩ := hcase cur hf
    refine ⟨metricKeys.foldl (applyLatest md mt) cur,
      by simp only [update_latest_record, hf], ?_, ?_, ?_⟩
    · exact (foldl_applyLatest_measurementId md mt _).trans hid
    · exact (foldl_applyLatest_record_type md mt _).trans hrt
    · intro m v hv
      constructor
      · rw [foldl_applyLatest_getVal, if_pos (by rw [hv]; rfl)]
        exact hv
      · rw [foldl_applyLatest_getLast, if_pos (by rw [hv]; rfl)]

theorem update_oldest_record_some (t2 : List Item) (md : MeasData) (mt : String) (o : Item)
    (hfind : findByRecordType t2 "oldest" = some o)
    (hoid : o.measurementId = "MEASUREMENT#oldest") :
    getItem (update_oldest_record t2 md mt) "MEASUREMENT#oldest" =
        some (metricKeys.foldl (applyOldest md mt) o) ∧
    (∀ k, k ≠ "MEASUREMENT#oldest" → getItem (update_oldest_record t2 md mt) k = getItem t2 k) := by
  simp only [update_oldest_record, hfind]
  constructor
  · have hs := getItem_putItem_self t2 (metricKeys.foldl (applyOldest md mt) o)
    rw [foldl_applyOldest_measurementId, hoid] at hs
    exact hs
  · intro k hk
    apply getItem_putItem_ne
    rw [foldl_applyOldest_measurementId, hoid]
    exact hk

theorem update_oldest_record_none (t2 : List Item) (md : MeasData) (mt : String)
    (hfind : findByRecordType t2 "oldest" = none) :
    ∀ k, k ≠ "MEASUREMENT#oldest" → getItem (update_oldest_record t2 md mt) k = getItem t2 k := by
  simp only [update_oldest_record, hfind]
  intro k hk
  apply getItem_putItem_ne
  rw [foldl_stampFirst_measurementId]
  exact hk

/-- C3: on an add when at least one other regular record already exists, each
metric present in the new record unconditionally overwrites Latest's value and
`last_<metric>_update` with the new value and time (even for out-of-order
timestamps), while Oldest is first-writer-wins per metric: a metric already
present in the current Oldest is left unchanged (value and
`first_<metric>_record`), a metric not yet present is set to the new value and
time, and metrics absent from the new record are untouched. -/
theorem C3_incremental_add_latest_overwrites_oldest_first_wins
    (t : List Item) (p : AddParams) (now : String)
    (hsent : sentinelWF t)
    (h1 : (⟨p.weight, p.height, p.body_fat_percentage⟩ : MeasData).isEmpty = false)
    (h2 : validate_measurement_values ⟨p.weight, p.height, p.body_fat_percentage⟩ = [])
    (hreg : isRegularId ("MEASUREMENT#" ++ effectiveTime p now) = true)
    (hsz : ¬ ((regularOf (putItem t
        { measurementId := "MEASUREMENT#" ++ effectiveTime p now,
          weight := p.weight, height := p.height, body_fat_percentage := p.body_fat_percentage,
          measurement_time := some (effectiveTime p now) })).length ≤ 1)) :
    ∃ L,
      getItem (add_body_measurement t p now false).1 "MEASUREMENT#latest" = some L ∧
      (∀ m : Metric, ∀ v : ℚ,
        MeasData.get ⟨p.weight, p.height, p.body_fat_percentage⟩ m = some v →
          L.getVal m = some v ∧ L.getLast m = some (effectiveTime p now)) ∧
      ∀ o : Item, findByRecordType t "oldest" = some o →
        ∃ O, getItem (add_body_measurement t p now false).1 "MEASUREMENT#oldest" = some O ∧
          ∀ m : Metric,
            ((o.getVal m).isSome = true →
              O.getVal m = o.getVal m ∧ O.getFirst m = o.getFirst m) ∧
            ((o.getVal m).isSome = false →
              ∀ v : ℚ, MeasData.get ⟨p.weight, p.height, p.body_fat_percentage⟩ m = some v →
                O.getVal m = some v ∧ O.getFirst m = some (effectiveTime p now)) ∧
            (MeasData.get ⟨p.weight, p.height, p.body_fat_percentage⟩ m = none →
              O.getVal m = o.getVal m ∧ O.getFirst m = o.getFirst m) := by
  rw [add_body_measurement_run t p now false h1 h2]
  simp only [if_neg Bool.false_ne_true]
  rw [update_latest_oldest_records]
  simp only [get_all_user_measurements]
  rw [if_neg hsz]
  have hfindL : findByRecordType (putItem t
        { measurementId := "MEASUREMENT#" ++ effectiveTime p now,
          weight := p.weight, height := p.height, body_fat_percentage := p.body_fat_percentage,
          measurement_time := some (effectiveTime p now) }) "latest" = findByRecordType t "latest" := by
    apply findByRecordType_putItem
    · simp
    · intro r hr he hc
      have hid := ((hsent r hr).1).mp hc
      rw [hid] at he
      exact ne_latestKey_of_regular hreg he.symm
  have hfindO1 : findByRecordType (putItem t
        { measurementId := "MEASUREMENT#" ++ effectiveTime p now,
          weight := p.weight, height := p.height, body_fat_percentage := p.body_fat_percentage,
          measurement_time := some (effectiveTime p now) }) "oldest" = findByRecordType t "oldest" := by
    apply findByRecordType_putItem
    · simp
    · intro r hr he hc
      have hid := ((hsent r hr).2).mp hc
      rw [hid] at he
      exact ne_oldestKey_of_regular hreg he.symm
  obtain ⟨X, hX2, hXid, hXrt, hXspec⟩ :=
    update_latest_record_result (putItem t
        { measurementId := "MEASUREMENT#" ++ effectiveTime p now,
          weight := p.weight, height := p.height, body_fat_percentage := p.body_fat_percentage,
          measurement_time := some (effectiveTime p now) }) (⟨p.weight, p.height, p.body_fat_percentage⟩ : MeasData) (effectiveTime p now) (by
      intro cur hf
      rw [hfindL] at hf
      obtain ⟨hmem, hrt⟩ := findByRecordType_some hf
      exact ⟨((hsent cur hmem).1).mp hrt, hrt⟩)
  rw [hX2]
  have hfindO2 : findByRecordType (putItem (putItem t
        { measurementId := "MEASUREMENT#" ++ effectiveTime p now,
          weight := p.weight, height := p.height, body_fat_percentage := p.body_fat_percentage,
          measurement_time := some (effectiveTime p now) }) X) "oldest" = findByRecordType t "oldest" := by
    rw [← hfindO1]
    apply findByRecordType_putItem
    · rw [hXrt]
      simp
    · intro r hr he hc
      rcases mem_putItem_subset hr with rfl | hrt2
      · rw [hXid] at he
        exact ne_latestKey_of_regular hreg he
      · rw [hXid] at he
        have hoid2 := ((hsent r hrt2).2).mp hc
        rw [he] at hoid2
        exact absurd hoid2 (by decide)
  have hgetX : getItem (putItem (putItem t
        { measurementId := "MEASUREMENT#" ++ effectiveTime p now,
          weight := p.weight, height := p.height, body_fat_percentage := p.body_fat_percentage,
          measurement_time := some (effectiveTime p now) }) X) "MEASUREMENT#latest" = some X := by
    have hs := getItem_putItem_self (putItem t
        { measurementId := "MEASUREMENT#" ++ effectiveTime p now,
          weight := p.weight, height := p.height, body_fat_percentage := p.body_fat_percentage,
          measurement_time := some (effectiveTime p now) }) X
    rw [hXid] at hs
    exact hs
  refine ⟨X, ?_, ?_, ?_⟩
  · cases ho : findByRecordType t "oldest" with
    | none =>
      rw [update_oldest_record_none (putItem (putItem t
        { measurementId := "MEASUREMENT#" ++ effectiveTime p now,
          weight := p.weight, height := p.height, body_fat_percentage := p.body_fat_percentage,
          measurement_time := some (effectiveTime p now) }) X) (⟨p.weight, p.height, p.body_fat_percentage⟩ : MeasData) (effectiveTime p now)
        (hfindO2.trans ho) "MEASUREMENT#latest" (by decide)]
      exact hgetX
    | some o =>
      obtain ⟨homem, hort⟩ := findByRecordType_some ho
      have hoid := ((hsent o homem).2).mp hort
      rw [(update_oldest_record_some (putItem (putItem t
        { measurementId := "MEASUREMENT#" ++ effectiveTime p now,
          weight := p.weight, height := p.height, body_fat_percentage := p.body_fat_percentage,
          measurement_time := some (effectiveTime p now) }) X) (⟨p.weight, p.height, p.body_fat_percentage⟩ : MeasData) (effectiveTime p now) o
        (hfindO2.trans ho) hoid).2 "MEASUREMENT#latest" (by decide)]
      exact hgetX
  · intro m v hv
    exact hXspec m v hv
  · intro o ho
    obtain ⟨homem, hort⟩ := findByRecordType_some ho
    have hoid := ((hsent o homem).2).mp hort
    obtain ⟨hOget, hOstab⟩ := update_oldest_record_some (putItem (putItem t
        { measurementId := "MEASUREMENT#" ++ effectiveTime p now,
          weight := p.weight, height := p.height, body_fat_percentage := p.body_fat_percentage,
          measurement_time := some (effectiveTime p now) }) X) (⟨p.weight, p.height, p.body_fat_percentage⟩ : MeasData) (effectiveTime p now) o
      (hfindO2.trans ho) hoid
    refine ⟨metricKeys.foldl (applyOldest (⟨p.weight, p.height, p.body_fat_percentage⟩ : MeasData) (effectiveTime p now)) o, hOget, ?_⟩
    intro m
    refine ⟨?_, ?_, ?_⟩
    · intro hsome
      cases hov : o.getVal m with
      | none =>
        rw [hov] at hsome
        exact absurd hsome (by simp)
      | some w =>
        constructor
        · rw [foldl_applyOldest_getVal, hov]
          by_cases hmd : (MeasData.get (⟨p.weight, p.height, p.body_fat_percentage⟩ : MeasData) m).isSome = true
          · rw [if_pos hmd]
            simp
          · rw [if_neg hmd]
        · rw [foldl_applyOldest_getFirst]
          by_cases hmd : (MeasData.get (⟨p.weight, p.height, p.body_fat_percentage⟩ : MeasData) m).isSome = true
          · rw [if_pos hmd, hov]
            simp
          · rw [if_neg hmd]
    · intro hnone v hv
      have hise : (o.getVal m).isNone = true := by
        cases hov : o.getVal m
        · rfl
        · rw [hov] at hnone
          exact absurd hnone (by simp)
      constructor
      · rw [foldl_applyOldest_getVal, if_pos (by rw [hv]; rfl), if_pos hise]
        exact hv
      · rw [foldl_applyOldest_getFirst, if_pos (by rw [hv]; rfl), if_pos hise]
    · intro hmdnone
      constructor
      · rw [foldl_applyOldest_getVal, if_neg (by rw [hmdnone]; simp)]
      · rw [foldl_applyOldest_getFirst, if_neg (by rw [hmdnone]; simp)]

/-- C3 witness: adding weight 70 to a store already holding a regular record
and both sentinels exercises the unconditional-Latest / first-wins-Oldest
behavior. -/
theorem C3_incremental_add_latest_overwrites_oldest_first_wins_witness :
    ∃ L,
      getItem (add_body_measurement
        [{ measurementId := "MEASUREMENT#2024-01-01", weight := some 60,
           measurement_time := some "2024-01-01" },
         { measurementId := "MEASUREMENT#latest", record_type := some "latest",
           weight := some 60, last_weight_update := some "2024-01-01" },
         { measurementId := "MEASUREMENT#oldest", record_type := some "oldest",
           weight := some 60, first_weight_record := some "2024-01-01" }]
        { weight := some 70, measurement_time := some "2024-02-02" } "now" false).1
        "MEASUREMENT#latest" = some L ∧
      (∀ m : Metric, ∀ v : ℚ,
        MeasData.get ⟨some 70, none, none⟩ m = some v →
          L.getVal m = some v ∧ L.getLast m = some (effectiveTime
            { weight := some 70, measurement_time := some "2024-02-02" } "now")) ∧
      ∀ o : Item, findByRecordType
        [{ measurementId := "MEASUREMENT#2024-01-01", weight := some 60,
           measurement_time := some "2024-01-01" },
         { measurementId := "MEASUREMENT#latest", record_type := some "latest",
           weight := some 60, last_weight_update := some "2024-01-01" },
         { measurementId := "MEASUREMENT#oldest", record_type := some "oldest",
           weight := some 60, first_weight_record := some "2024-01-01" }] "oldest" = some o →
        ∃ O, getItem (add_body_measurement
          [{ measurementId := "MEASUREMENT#2024-01-01", weight := some 60,
             measurement_time := some "2024-01-01" },
           { measurementId := "MEASUREMENT#latest", record_type := some "latest",
             weight := some 60, last_weight_update := some "2024-01-01" },
           { measurementId := "MEASUREMENT#oldest", record_type := some "oldest",
             weight := some 60, first_weight_record := some "2024-01-01" }]
          { weight := some 70, measurement_time := some "2024-02-02" } "now" false).1
          "MEASUREMENT#oldest" = some O ∧
          ∀ m : Metric,
            ((o.getVal m).isSome = true →
              O.getVal m = o.getVal m ∧ O.getFirst m = o.getFirst m) ∧
            ((o.getVal m).isSome = false →
              ∀ v : ℚ, MeasData.get ⟨some 70, none, none⟩ m = some v →
                O.getVal m = some v ∧ O.getFirst m = some (effectiveTime
                  { weight := some 70, measurement_time := some "2024-02-02" } "now")) ∧
            (MeasData.get ⟨some 70, none, none⟩ m = none →
              O.getVal m = o.getVal m ∧ O.getFirst m = o.getFirst m) :=
  C3_incremental_add_latest_overwrites_oldest_first_wins
    [{ measurementId := "MEASUREMENT#2024-01-01", weight := some 60,
       measurement_time := some "2024-01-01" },
     { measurementId := "MEASUREMENT#latest", record_type := some "latest",
       weight := some 60, last_weight_update := some "2024-01-01" },
     { measurementId := "MEASUREMENT#oldest", record_type := some "oldest",
       weight := some 60, first_weight_record := some "2024-01-01" }]
    { weight := some 70, measurement_time := some "2024-02-02" } "now"
    (by unfold sentinelWF; decide) (by decide) (by decide) (by decide) (by decide)

/- ===== Lemmas: the update path ===== -/

theorem mergeUpdate_getVal (ex : Item) (md : MeasData) (m : Metric) :
    (mergeUpdate ex md).getVal m = overrideWith (md.get m) (ex.getVal m) := by
  cases m <;> rfl

theorem mergeUpdate_getLast (ex : Item) (md : MeasData) (m : Metric) :
    (mergeUpdate ex md).getLast m = ex.getLast m := by
  cases m <;> rfl

theorem mergeUpdate_getFirst (ex : Item) (md : MeasData) (m : Metric) :
    (mergeUpdate ex md).getFirst m = ex.getFirst m := by
  cases m <;> rfl

/-- C4: an update of an existing record merges the supplied metric values into
the record — every modelled field not mentioned in the request (the other
metric values, `measurement_time`, `record_type`, the summary timestamp
attributes, the id) is preserved — and then Latest is fully recomputed from all
regular records: for each metric, the value and time of a maximal-time record
carrying it, and absence for a metric carried by no record. -/
theorem C4_update_merges_and_recomputes_latest
    (t : List Item) (p : UpdateParams) (mid : String) (ex : Item)
    (hmid : p.measurement_id = some mid) (hne : ¬ (mid = ""))
    (h1 : (⟨p.weight, p.height, p.body_fat_percentage⟩ : MeasData).isEmpty = false)
    (h2 : validate_measurement_values ⟨p.weight, p.height, p.body_fat_percentage⟩ = [])
    (hex : getItem t ("MEASUREMENT#" ++ mid) = some ex)
    (hreg : isRegularId ("MEASUREMENT#" ++ mid) = true)
    (hWF : regularWF (regularOf (putItem t
      (mergeUpdate ex ⟨p.weight, p.height, p.body_fat_percentage⟩)))) :
    getItem (update_body_measurement t p false).1 ("MEASUREMENT#" ++ mid) =
        some (mergeUpdate ex ⟨p.weight, p.height, p.body_fat_percentage⟩) ∧
    (∀ m : Metric,
      (MeasData.get ⟨p.weight, p.height, p.body_fat_percentage⟩ m = none →
        (mergeUpdate ex ⟨p.weight, p.height, p.body_fat_percentage⟩).getVal m = ex.getVal m) ∧
      (∀ v : ℚ, MeasData.get ⟨p.weight, p.height, p.body_fat_percentage⟩ m = some v →
        (mergeUpdate ex ⟨p.weight, p.height, p.body_fat_percentage⟩).getVal m = some v) ∧
      (mergeUpdate ex ⟨p.weight, p.height, p.body_fat_percentage⟩).getLast m = ex.getLast m ∧
      (mergeUpdate ex ⟨p.weight, p.height, p.body_fat_percentage⟩).getFirst m = ex.getFirst m) ∧
    (mergeUpdate ex ⟨p.weight, p.height, p.body_fat_percentage⟩).measurementId
        = ex.measurementId ∧
    (mergeUpdate ex ⟨p.weight, p.height, p.body_fat_percentage⟩).measurement_time
        = ex.measurement_time ∧
    (mergeUpdate ex ⟨p.weight, p.height, p.body_fat_percentage⟩).record_type = ex.record_type ∧
    ∃ L, getItem (update_body_measurement t p false).1 "MEASUREMENT#latest" = some L ∧
      IsLatestOf (regularOf (putItem t
        (mergeUpdate ex ⟨p.weight, p.height, p.body_fat_percentage⟩))) L := by
  rw [update_body_measurement_run t p false mid ex hmid hne h1 h2 hex]
  simp only [if_neg Bool.false_ne_true]
  have hexid : ex.measurementId = "MEASUREMENT#" ++ mid := by
    have hex' : List.find? (fun r => r.measurementId = "MEASUREMENT#" ++ mid) t = some ex := hex
    have h3 := List.find?_some hex'
    exact of_decide_eq_true h3
  have huid : (mergeUpdate ex ⟨p.weight, p.height, p.body_fat_percentage⟩).measurementId
      = "MEASUREMENT#" ++ mid := hexid
  have hureg : isRegularItem (mergeUpdate ex ⟨p.weight, p.height, p.body_fat_percentage⟩)
      = true := by
    rw [isRegularItem, huid]
    exact hreg
  have humem : mergeUpdate ex ⟨p.weight, p.height, p.body_fat_percentage⟩ ∈
      regularOf (putItem t (mergeUpdate ex ⟨p.weight, p.height, p.body_fat_percentage⟩)) :=
    List.mem_filter.mpr ⟨self_mem_putItem _ _, hureg⟩
  have hne2 : regularOf (putItem t (mergeUpdate ex ⟨p.weight, p.height, p.body_fat_percentage⟩))
      ≠ [] := by
    intro hnil
    rw [hnil] at humem
    exact absurd humem (List.not_mem_nil _)
  rw [recalculate_latest_record_after_update, recalcLatestFull_eq_put _ hne2 hWF]
  refine ⟨?_, ?_, rfl, rfl, rfl, rebuildLatestItem _, ?_, rebuildLatestItem_isLatest _⟩
  · rw [getItem_putItem_ne _ _ _ (by
      rw [rebuildLatestItem_measurementId]
      exact ne_latestKey_of_regular hreg)]
    have hs := getItem_putItem_self t (mergeUpdate ex ⟨p.weight, p.height, p.body_fat_percentage⟩)
    rw [huid] at hs
    exact hs
  · intro m
    refine ⟨?_, ?_, mergeUpdate_getLast ex _ m, mergeUpdate_getFirst ex _ m⟩
    · intro hm
      rw [mergeUpdate_getVal, hm]
      rfl
    · intro v hv
      rw [mergeUpdate_getVal, hv]
      rfl
  · have hs := getItem_putItem_self t
      (mergeUpdate ex ⟨p.weight, p.height, p.body_fat_percentage⟩)
    have hLid := rebuildLatestItem_measurementId
      (regularOf (putItem t (mergeUpdate ex ⟨p.weight, p.height, p.body_fat_percentage⟩)))
    have hself := getItem_putItem_self
      (putItem t (mergeUpdate ex ⟨p.weight, p.height, p.body_fat_percentage⟩))
      (rebuildLatestItem (regularOf (putItem t
        (mergeUpdate ex ⟨p.weight, p.height, p.body_fat_percentage⟩))))
    rw [hLid] at hself
    exact hself

/-- C4 witness: updating the older of two records merges the new weight and
recomputes Latest over both regular records. -/
theorem C4_update_merges_and_recomputes_latest_witness :
    getItem (update_body_measurement [{ measurementId := "MEASUREMENT#2024-01-01", weight := some 60, measurement_time := some "2024-01-01" }, { measurementId := "MEASUREMENT#2024-02-02", weight := some 66, height := some 170, measurement_time := some "2024-02-02" }] { measurement_id := some "2024-01-01", weight := some 61 } false).1 ("MEASUREMENT#" ++ "2024-01-01") = some (mergeUpdate ({ measurementId := "MEASUREMENT#2024-01-01", weight := some 60, measurement_time := some "2024-01-01" } : Item) (⟨some 61, none, none⟩ : MeasData)) ∧
    (∀ m : Metric,
      (MeasData.get (⟨some 61, none, none⟩ : MeasData) m = none → (mergeUpdate ({ measurementId := "MEASUREMENT#2024-01-01", weight := some 60, measurement_time := some "2024-01-01" } : Item) (⟨some 61, none, none⟩ : MeasData)).getVal m = (({ measurementId := "MEASUREMENT#2024-01-01", weight := some 60, measurement_time := some "2024-01-01" } : Item)).getVal m) ∧
      (∀ v : ℚ, MeasData.get (⟨some 61, none, none⟩ : MeasData) m = some v → (mergeUpdate ({ measurementId := "MEASUREMENT#2024-01-01", weight := some 60, measurement_time := some "2024-01-01" } : Item) (⟨some 61, none, none⟩ : MeasData)).getVal m = some v) ∧
      (mergeUpdate ({ measurementId := "MEASUREMENT#2024-01-01", weight := some 60, measurement_time := some "2024-01-01" } : Item) (⟨some 61, none, none⟩ : MeasData)).getLast m = (({ measurementId := "MEASUREMENT#2024-01-01", weight := some 60, measurement_time := some "2024-01-01" } : Item)).getLast m ∧
      (mergeUpdate ({ measurementId := "MEASUREMENT#2024-01-01", weight := some 60, measurement_time := some "2024-01-01" } : Item) (⟨some 61, none, none⟩ : MeasData)).getFirst m = (({ measurementId := "MEASUREMENT#2024-01-01", weight := some 60, measurement_time := some "2024-01-01" } : Item)).getFirst m) ∧
    (mergeUpdate ({ measurementId := "MEASUREMENT#2024-01-01", weight := some 60, measurement_time := some "2024-01-01" } : Item) (⟨some 61, none, none⟩ : MeasData)).measurementId = (({ measurementId := "MEASUREMENT#2024-01-01", weight := some 60, measurement_time := some "2024-01-01" } : Item)).measurementId ∧
    (mergeUpdate ({ measurementId := "MEASUREMENT#2024-01-01", weight := some 60, measurement_time := some "2024-01-01" } : Item) (⟨some 61, none, none⟩ : MeasData)).measurement_time = (({ measurementId := "MEASUREMENT#2024-01-01", weight := some 60, measurement_time := some "2024-01-01" } : Item)).measurement_time ∧
    (mergeUpdate ({ measurementId := "MEASUREMENT#2024-01-01", weight := some 60, measurement_time := some "2024-01-01" } : Item) (⟨some 61, none, none⟩ : MeasData)).record_type = (({ measurementId := "MEASUREMENT#2024-01-01", weight := some 60, measurement_time := some "2024-01-01" } : Item)).record_type ∧
    ∃ L, getItem (update_body_measurement [{ measurementId := "MEASUREMENT#2024-01-01", weight := some 60, measurement_time := some "2024-01-01" }, { measurementId := "MEASUREMENT#2024-02-02", weight := some 66, height := some 170, measurement_time := some "2024-02-02" }] { measurement_id := some "2024-01-01", weight := some 61 } false).1 "MEASUREMENT#latest" = some L ∧
      IsLatestOf (regularOf (putItem [{ measurementId := "MEASUREMENT#2024-01-01", weight := some 60, measurement_time := some "2024-01-01" }, { measurementId := "MEASUREMENT#2024-02-02", weight := some 66, height := some 170, measurement_time := some "2024-02-02" }] (mergeUpdate ({ measurementId := "MEASUREMENT#2024-01-01", weight := some 60, measurement_time := some "2024-01-01" } : Item) (⟨some 61, none, none⟩ : MeasData)))) L :=
  C4_update_merges_and_recomputes_latest [{ measurementId := "MEASUREMENT#2024-01-01", weight := some 60, measurement_time := some "2024-01-01" }, { measurementId := "MEASUREMENT#2024-02-02", weight := some 66, height := some 170, measurement_time := some "2024-02-02" }] { measurement_id := some "2024-01-01", weight := some 61 } "2024-01-01" ({ measurementId := "MEASUREMENT#2024-01-01", weight := some 60, measurement_time := some "2024-01-01" } : Item)
    rfl (by decide) (by decide) (by decide) (by decide) (by decide)
    (by unfold regularWF; decide)

/-- C1: after deleting an existing record, both Latest and Oldest are fully
recomputed from the remaining regular records: per metric, the value and
measurement time of a remaining record of maximal (Latest) / minimal (Oldest)
`measurement_time` carrying that metric; a metric carried by no remaining
record is absent from both; and if no regular record remains, both summary
records are deleted entirely. -/
theorem C1_delete_recomputes_both_summaries
    (t : List Item) (p : DeleteParams) (mid : String) (ex : Item)
    (hmid : p.measurement_id = some mid) (hne : ¬ (mid = ""))
    (hex : getItem t ("MEASUREMENT#" ++ mid) = some ex)
    (hWF : regularWF (regularOf (deleteItem t ("MEASUREMENT#" ++ mid)))) :
    (regularOf (deleteItem t ("MEASUREMENT#" ++ mid)) = [] →
      getItem (delete_body_measurement t p false).1 "MEASUREMENT#latest" = none ∧
      getItem (delete_body_measurement t p false).1 "MEASUREMENT#oldest" = none) ∧
    (regularOf (deleteItem t ("MEASUREMENT#" ++ mid)) ≠ [] →
      ∃ L O,
        getItem (delete_body_measurement t p false).1 "MEASUREMENT#latest" = some L ∧
        getItem (delete_body_measurement t p false).1 "MEASUREMENT#oldest" = some O ∧
        IsLatestOf (regularOf (deleteItem t ("MEASUREMENT#" ++ mid))) L ∧
        IsOldestOf (regularOf (deleteItem t ("MEASUREMENT#" ++ mid))) O) := by
  rw [delete_body_measurement_run t p false mid ex hmid hne hex]
  simp only [if_neg Bool.false_ne_true]
  rw [recalculate_latest_record_after_deletion, recalculate_oldest_record_after_deletion]
  constructor
  · intro hempty
    rw [recalcLatestFull_empty _ hempty]
    have hreg2 : regularOf (deleteItem (deleteItem t ("MEASUREMENT#" ++ mid)) "MEASUREMENT#latest") = [] := by
      rw [regularOf_deleteItem_not_regular _ _ (by decide), hempty]
    rw [recalcOldestFull_empty _ hreg2]
    constructor
    · rw [getItem_deleteItem_ne _ _ _ (by decide)]
      exact getItem_deleteItem_self (deleteItem t ("MEASUREMENT#" ++ mid)) "MEASUREMENT#latest"
    · exact getItem_deleteItem_self (deleteItem (deleteItem t ("MEASUREMENT#" ++ mid)) "MEASUREMENT#latest") "MEASUREMENT#oldest"
  · intro hnull
    rw [recalcLatestFull_eq_put _ hnull hWF]
    have hregeq : regularOf (putItem (deleteItem t ("MEASUREMENT#" ++ mid)) (rebuildLatestItem (regularOf (deleteItem t ("MEASUREMENT#" ++ mid)))))
        = regularOf (deleteItem t ("MEASUREMENT#" ++ mid)) := by
      apply regularOf_putItem_not_regular
      rw [isRegularItem, rebuildLatestItem_measurementId]
      decide
    have hne3 : regularOf (putItem (deleteItem t ("MEASUREMENT#" ++ mid)) (rebuildLatestItem (regularOf (deleteItem t ("MEASUREMENT#" ++ mid))))) ≠ [] := by
      rw [hregeq]
      exact hnull
    have hWF3 : regularWF (regularOf (putItem (deleteItem t ("MEASUREMENT#" ++ mid)) (rebuildLatestItem (regularOf (deleteItem t ("MEASUREMENT#" ++ mid)))))) := by
      rw [hregeq]
      exact hWF
    rw [recalcOldestFull_eq_put _ hne3 hWF3, hregeq]
    refine ⟨rebuildLatestItem (regularOf (deleteItem t ("MEASUREMENT#" ++ mid))), rebuildOldestItem (regularOf (deleteItem t ("MEASUREMENT#" ++ mid))),
      ?_, ?_, rebuildLatestItem_isLatest _, rebuildOldestItem_isOldest _⟩
    · rw [getItem_putItem_ne _ _ _ (by
        rw [rebuildOldestItem_measurementId]
        decide)]
      have hs := getItem_putItem_self (deleteItem t ("MEASUREMENT#" ++ mid)) (rebuildLatestItem (regularOf (deleteItem t ("MEASUREMENT#" ++ mid))))
      rw [rebuildLatestItem_measurementId] at hs
      exact hs
    · have hs := getItem_putItem_self (putItem (deleteItem t ("MEASUREMENT#" ++ mid)) (rebuildLatestItem (regularOf (deleteItem t ("MEASUREMENT#" ++ mid)))))
        (rebuildOldestItem (regularOf (deleteItem t ("MEASUREMENT#" ++ mid))))
      rw [rebuildOldestItem_measurementId] at hs
      exact hs

/-- C1 witness: deleting the newer of two weight records leaves Latest and
Oldest recomputed from the remaining record; the claim applies at this input
with all hypotheses discharged. -/
theorem C1_delete_recomputes_both_summaries_witness :
    (regularOf (deleteItem [{ measurementId := "MEASUREMENT#2024-01-01", weight := some 65, measurement_time := some "2024-01-01" }, { measurementId := "MEASUREMENT#2024-02-02", weight := some 66, measurement_time := some "2024-02-02" }] ("MEASUREMENT#" ++ "2024-02-02")) = [] →
      getItem (delete_body_measurement [{ measurementId := "MEASUREMENT#2024-01-01", weight := some 65, measurement_time := some "2024-01-01" }, { measurementId := "MEASUREMENT#2024-02-02", weight := some 66, measurement_time := some "2024-02-02" }] { measurement_id := some "2024-02-02" } false).1 "MEASUREMENT#latest" = none ∧
      getItem (delete_body_measurement [{ measurementId := "MEASUREMENT#2024-01-01", weight := some 65, measurement_time := some "2024-01-01" }, { measurementId := "MEASUREMENT#2024-02-02", weight := some 66, measurement_time := some "2024-02-02" }] { measurement_id := some "2024-02-02" } false).1 "MEASUREMENT#oldest" = none) ∧
    (regularOf (deleteItem [{ measurementId := "MEASUREMENT#2024-01-01", weight := some 65, measurement_time := some "2024-01-01" }, { measurementId := "MEASUREMENT#2024-02-02", weight := some 66, measurement_time := some "2024-02-02" }] ("MEASUREMENT#" ++ "2024-02-02")) ≠ [] →
      ∃ L O,
        getItem (delete_body_measurement [{ measurementId := "MEASUREMENT#2024-01-01", weight := some 65, measurement_time := some "2024-01-01" }, { measurementId := "MEASUREMENT#2024-02-02", weight := some 66, measurement_time := some "2024-02-02" }] { measurement_id := some "2024-02-02" } false).1 "MEASUREMENT#latest" = some L ∧
        getItem (delete_body_measurement [{ measurementId := "MEASUREMENT#2024-01-01", weight := some 65, measurement_time := some "2024-01-01" }, { measurementId := "MEASUREMENT#2024-02-02", weight := some 66, measurement_time := some "2024-02-02" }] { measurement_id := some "2024-02-02" } false).1 "MEASUREMENT#oldest" = some O ∧
        IsLatestOf (regularOf (deleteItem [{ measurementId := "MEASUREMENT#2024-01-01", weight := some 65, measurement_time := some "2024-01-01" }, { measurementId := "MEASUREMENT#2024-02-02", weight := some 66, measurement_time := some "2024-02-02" }] ("MEASUREMENT#" ++ "2024-02-02"))) L ∧
        IsOldestOf (regularOf (deleteItem [{ measurementId := "MEASUREMENT#2024-01-01", weight := some 65, measurement_time := some "2024-01-01" }, { measurementId := "MEASUREMENT#2024-02-02", weight := some 66, measurement_time := some "2024-02-02" }] ("MEASUREMENT#" ++ "2024-02-02"))) O) :=
  C1_delete_recomputes_both_summaries
    [{ measurementId := "MEASUREMENT#2024-01-01", weight := some 65, measurement_time := some "2024-01-01" }, { measurementId := "MEASUREMENT#2024-02-02", weight := some 66, measurement_time := some "2024-02-02" }]
    { measurement_id := some "2024-02-02" } "2024-02-02"
    { measurementId := "MEASUREMENT#2024-02-02", weight := some 66, measurement_time := some "2024-02-02" }
    rfl (by decide) (by decide) (by unfold regularWF; decide)

/- ===== C5: update and the Oldest summary ===== -/

theorem measKey_inj {a b : String} (h : "MEASUREMENT#" ++ a = "MEASUREMENT#" ++ b) : a = b := by
  have hd := congrArg String.data h
  rw [String.data_append, String.data_append] at hd
  exact String.ext (List.append_cancel_left hd)

/-- C5 counterexample: the claim fails for the update of an existing record
whose `measurement_id` is the string "oldest".  The key built from it is
exactly the Oldest sentinel's key, so the update merges the new weight into the
Oldest SummaryRecord itself: its weight changes from 60 to 70 while the
operation reports success. -/
theorem C5_counterexample_update_targets_oldest_sentinel :
    (getItem (update_body_measurement
      [{ measurementId := "MEASUREMENT#2024-01-01", weight := some 60,
         measurement_time := some "2024-01-01" },
       { measurementId := "MEASUREMENT#oldest", record_type := some "oldest", weight := some 60,
         first_weight_record := some "2024-01-01" }]
      { measurement_id := some "oldest", weight := some 70 } false).1 "MEASUREMENT#oldest").map
        (fun r => r.weight) = some (some 70) ∧
    (getItem
      [{ measurementId := "MEASUREMENT#2024-01-01", weight := some 60,
         measurement_time := some "2024-01-01" },
       { measurementId := "MEASUREMENT#oldest", record_type := some "oldest", weight := some 60,
         first_weight_record := some "2024-01-01" }] "MEASUREMENT#oldest").map
        (fun r => r.weight) = some (some 60) ∧
    (update_body_measurement
      [{ measurementId := "MEASUREMENT#2024-01-01", weight := some 60,
         measurement_time := some "2024-01-01" },
       { measurementId := "MEASUREMENT#oldest", record_type := some "oldest", weight := some 60,
         first_weight_record := some "2024-01-01" }]
      { measurement_id := some "oldest", weight := some 70 } false).2.success = true := by
  refine ⟨?_, ?_, ?_⟩ <;> decide

/-- C5 (amended): UpdateBodyMeasurement leaves the Oldest SummaryRecord
untouched for every update whose `measurement_id` is not the sentinel suffix
"oldest"; only an update naming the sentinel itself can modify Oldest. -/
theorem C5_amended_update_preserves_oldest
    (t : List Item) (p : UpdateParams) (fault : Bool)
    (hmid : ∀ mid, p.measurement_id = some mid → mid ≠ "oldest") :
    getItem (update_body_measurement t p fault).1 "MEASUREMENT#oldest" =
      getItem t "MEASUREMENT#oldest" := by
  cases hpm : p.measurement_id with
  | none => simp [update_body_measurement, hpm]
  | some mid =>
    by_cases hne : mid = ""
    · simp [update_body_measurement, hpm, hne]
    · by_cases h1 : (⟨p.weight, p.height, p.body_fat_percentage⟩ : MeasData).isEmpty = true
      · simp [update_body_measurement, hpm, hne, h1]
      · by_cases h2 : validate_measurement_values
            ⟨p.weight, p.height, p.body_fat_percentage⟩ = []
        · cases hg : getItem t ("MEASUREMENT#" ++ mid) with
          | none => simp [update_body_measurement, hpm, hne, h1, h2, hg]
          | some ex =>
            rw [update_body_measurement_run t p fault mid ex hpm hne
              (Bool.eq_false_iff.mpr h1) h2 hg]
            have hexid : ex.measurementId = "MEASUREMENT#" ++ mid := by
              have hg' : List.find? (fun r => r.measurementId = "MEASUREMENT#" ++ mid) t
                  = some ex := hg
              have h3 := List.find?_some hg'
              exact of_decide_eq_true h3
            have hkey : ("MEASUREMENT#oldest" : String) ≠ "MEASUREMENT#" ++ mid := by
              intro he
              have hcat : "MEASUREMENT#" ++ "oldest" = "MEASUREMENT#" ++ mid := by
                rw [← he]
                decide
              exact hmid mid hpm (measKey_inj hcat).symm
            have hput : getItem (putItem t
                (mergeUpdate ex ⟨p.weight, p.height, p.body_fat_percentage⟩))
                "MEASUREMENT#oldest" = getItem t "MEASUREMENT#oldest" := by
              apply getItem_putItem_ne
              rw [show (mergeUpdate ex
                  ⟨p.weight, p.height, p.body_fat_percentage⟩).measurementId
                = ex.measurementId from rfl, hexid]
              exact hkey
            cases fault with
            | true =>
              simp only [if_pos rfl]
              exact hput
            | false =>
              simp only [if_neg Bool.false_ne_true]
              rw [recalculate_latest_record_after_update,
                getItem_recalcLatestFull_ne _ _ (by decide)]
              exact hput
        · simp [update_body_measurement, hpm, hne, h1, h2]

/-- C5 witness: an ordinary update (id "2024-01-01") leaves the Oldest summary
exactly as it was. -/
theorem C5_amended_update_preserves_oldest_witness :
    getItem (update_body_measurement
      [{ measurementId := "MEASUREMENT#2024-01-01", weight := some 60,
         measurement_time := some "2024-01-01" },
       { measurementId := "MEASUREMENT#oldest", record_type := some "oldest", weight := some 60,
         first_weight_record := some "2024-01-01" }]
      { measurement_id := some "2024-01-01", weight := some 70 } false).1 "MEASUREMENT#oldest" =
    getItem
      [{ measurementId := "MEASUREMENT#2024-01-01", weight := some 60,
         measurement_time := some "2024-01-01" },
       { measurementId := "MEASUREMENT#oldest", record_type := some "oldest", weight := some 60,
         first_weight_record := some "2024-01-01" }] "MEASUREMENT#oldest" :=
  C5_amended_update_preserves_oldest
    [{ measurementId := "MEASUREMENT#2024-01-01", weight := some 60,
       measurement_time := some "2024-01-01" },
     { measurementId := "MEASUREMENT#oldest", record_type := some "oldest", weight := some 60,
       first_weight_record := some "2024-01-01" }]
    { measurement_id := some "2024-01-01", weight := some 70 } false
    (by intro mid hm; cases hm; decide)

/- ===== C9: measurement history ===== -/

/-- C9: with both date bounds present, the history result is built from a list
of regular records only (the sentinels never appear), strictly descending by
record id (newest first), with `count` equal to the returned length, which is
at most the supplied limit (default 50); a call missing either bound is a
ValidationError. -/
theorem C9_history_filtered_ordered_limited
    (t : List Item) (p : HistoryParams) (hsorted : tableSorted t) :
    (∀ s e, p.start_date = some s → p.end_date = some e → s ≠ "" → e ≠ "" →
      ∃ l : List Item,
        l.Pairwise (fun a b => strLt b.measurementId a.measurementId = true) ∧
        (∀ r ∈ l, isRegularItem r = true) ∧
        (get_measurement_history t p).measurements = l.map cleanMeasurement ∧
        (get_measurement_history t p).count
          = (get_measurement_history t p).measurements.length ∧
        (get_measurement_history t p).measurements.length ≤ p.limit.getD 50 ∧
        (get_measurement_history t p).success = true) ∧
    ((p.start_date = none ∨ p.end_date = none ∨
        p.start_date = some "" ∨ p.end_date = some "") →
      (get_measurement_history t p).success = false ∧
      (get_measurement_history t p).errorType = some "ValidationError") := by
  constructor
  · intro s e hs he hs' he'
    simp only [get_measurement_history, hs, he]
    rw [if_neg (by simp [hs', he'])]
    refine ⟨(queryRangeDesc t ("MEASUREMENT#" ++ s) ("MEASUREMENT#" ++ e ++ "Z")
        (p.limit.getD 50)).filter isRegularItem, ?_, ?_, rfl, rfl, ?_, rfl⟩
    · apply List.Pairwise.filter
      unfold queryRangeDesc
      apply List.Pairwise.sublist (List.take_sublist _ _)
      rw [List.pairwise_reverse]
      exact List.Pairwise.filter _ hsorted
    · intro r hr
      exact (List.mem_filter.mp hr).2
    · rw [List.length_map]
      calc (List.filter isRegularItem _).length
          ≤ (queryRangeDesc t ("MEASUREMENT#" ++ s) ("MEASUREMENT#" ++ e ++ "Z")
              (p.limit.getD 50)).length := List.length_filter_le _ _
        _ ≤ p.limit.getD 50 := by
            unfold queryRangeDesc
            exact List.length_take_le _ _
  · intro hcase
    rcases hcase with h | h | h | h
    · cases he : p.end_date <;> simp [get_measurement_history, h, he]
    · cases hs : p.start_date <;> simp [get_measurement_history, h, hs]
    · cases he : p.end_date <;> simp [get_measurement_history, h, he]
    · cases hs : p.start_date <;> simp [get_measurement_history, h, hs]

/-- C9 witness: a concrete sorted store with two regular records and both
sentinels; the in-range query is clean, descending and within the default
limit, and a call without end_date errors. -/
theorem C9_history_filtered_ordered_limited_witness :
    (∃ l : List Item,
      l.Pairwise (fun a b => strLt b.measurementId a.measurementId = true) ∧
      (∀ r ∈ l, isRegularItem r = true) ∧
      (get_measurement_history
        [{ measurementId := "MEASUREMENT#2024-01-01", weight := some 65,
           measurement_time := some "2024-01-01" },
         { measurementId := "MEASUREMENT#2024-03-03", weight := some 66,
           measurement_time := some "2024-03-03" },
         { measurementId := "MEASUREMENT#latest", record_type := some "latest",
           weight := some 66, last_weight_update := some "2024-03-03" },
         { measurementId := "MEASUREMENT#oldest", record_type := some "oldest",
           weight := some 65, first_weight_record := some "2024-01-01" }]
        { start_date := some "2024-01-01", end_date := some "2024-12-31" }).measurements
        = l.map cleanMeasurement ∧
      (get_measurement_history
        [{ measurementId := "MEASUREMENT#2024-01-01", weight := some 65,
           measurement_time := some "2024-01-01" },
         { measurementId := "MEASUREMENT#2024-03-03", weight := some 66,
           measurement_time := some "2024-03-03" },
         { measurementId := "MEASUREMENT#latest", record_type := some "latest",
           weight := some 66, last_weight_update := some "2024-03-03" },
         { measurementId := "MEASUREMENT#oldest", record_type := some "oldest",
           weight := some 65, first_weight_record := some "2024-01-01" }]
        { start_date := some "2024-01-01", end_date := some "2024-12-31" }).count
        = (get_measurement_history
        [{ measurementId := "MEASUREMENT#2024-01-01", weight := some 65,
           measurement_time := some "2024-01-01" },
         { measurementId := "MEASUREMENT#2024-03-03", weight := some 66,
           measurement_time := some "2024-03-03" },
         { measurementId := "MEASUREMENT#latest", record_type := some "latest",
           weight := some 66, last_weight_update := some "2024-03-03" },
         { measurementId := "MEASUREMENT#oldest", record_type := some "oldest",
           weight := some 65, first_weight_record := some "2024-01-01" }]
        { start_date := some "2024-01-01", end_date := some "2024-12-31" }).measurements.length ∧
      (get_measurement_history
        [{ measurementId := "MEASUREMENT#2024-01-01", weight := some 65,
           measurement_time := some "2024-01-01" },
         { measurementId := "MEASUREMENT#2024-03-03", weight := some 66,
           measurement_time := some "2024-03-03" },
         { measurementId := "MEASUREMENT#latest", record_type := some "latest",
           weight := some 66, last_weight_update := some "2024-03-03" },
         { measurementId := "MEASUREMENT#oldest", record_type := some "oldest",
           weight := some 65, first_weight_record := some "2024-01-01" }]
        { start_date := some "2024-01-01", end_date := some "2024-12-31" }).measurements.length
        ≤ (Option.getD none 50) ∧
      (get_measurement_history
        [{ measurementId := "MEASUREMENT#2024-01-01", weight := some 65,
           measurement_time := some "2024-01-01" },
         { measurementId := "MEASUREMENT#2024-03-03", weight := some 66,
           measurement_time := some "2024-03-03" },
         { measurementId := "MEASUREMENT#latest", record_type := some "latest",
           weight := some 66, last_weight_update := some "2024-03-03" },
         { measurementId := "MEASUREMENT#oldest", record_type := some "oldest",
           weight := some 65, first_weight_record := some "2024-01-01" }]
        { start_date := some "2024-01-01", end_date := some "2024-12-31" }).success = true) ∧
    ((get_measurement_history
        [{ measurementId := "MEASUREMENT#2024-01-01", weight := some 65,
           measurement_time := some "2024-01-01" },
         { measurementId := "MEASUREMENT#2024-03-03", weight := some 66,
           measurement_time := some "2024-03-03" },
         { measurementId := "MEASUREMENT#latest", record_type := some "latest",
           weight := some 66, last_weight_update := some "2024-03-03" },
         { measurementId := "MEASUREMENT#oldest", record_type := some "oldest",
           weight := some 65, first_weight_record := some "2024-01-01" }]
        { start_date := some "2024-01-01" }).success = false ∧
      (get_measurement_history
        [{ measurementId := "MEASUREMENT#2024-01-01", weight := some 65,
           measurement_time := some "2024-01-01" },
         { measurementId := "MEASUREMENT#2024-03-03", weight := some 66,
           measurement_time := some "2024-03-03" },
         { measurementId := "MEASUREMENT#latest", record_type := some "latest",
           weight := some 66, last_weight_update := some "2024-03-03" },
         { measurementId := "MEASUREMENT#oldest", record_type := some "oldest",
           weight := some 65, first_weight_record := some "2024-01-01" }]
        { start_date := some "2024-01-01" }).errorType = some "ValidationError") :=
  ⟨(C9_history_filtered_ordered_limited
      [{ measurementId := "MEASUREMENT#2024-01-01", weight := some 65,
         measurement_time := some "2024-01-01" },
       { measurementId := "MEASUREMENT#2024-03-03", weight := some 66,
         measurement_time := some "2024-03-03" },
       { measurementId := "MEASUREMENT#latest", record_type := some "latest",
         weight := some 66, last_weight_update := some "2024-03-03" },
       { measurementId := "MEASUREMENT#oldest", record_type := some "oldest",
         weight := some 65, first_weight_record := some "2024-01-01" }]
      { start_date := some "2024-01-01", end_date := some "2024-12-31" }
      (by unfold tableSorted; decide)).1 "2024-01-01" "2024-12-31" rfl rfl
      (by decide) (by decide),
   (C9_history_filtered_ordered_limited
      [{ measurementId := "MEASUREMENT#2024-01-01", weight := some 65,
         measurement_time := some "2024-01-01" },
       { measurementId := "MEASUREMENT#2024-03-03", weight := some 66,
         measurement_time := some "2024-03-03" },
       { measurementId := "MEASUREMENT#latest", record_type := some "latest",
         weight := some 66, last_weight_update := some "2024-03-03" },
       { measurementId := "MEASUREMENT#oldest", record_type := some "oldest",
         weight := some 65, first_weight_record := some "2024-01-01" }]
      { start_date := some "2024-01-01" }
      (by unfold tableSorted; decide)).2 (Or.inr (Or.inl rfl))⟩

/- ===== C10: the regular-record well-formedness invariant ===== -/

theorem not_regular_of_id_latest {r : Item} (h : r.measurementId = "MEASUREMENT#latest") :
    isRegularItem r = false := by
  rw [isRegularItem, h]
  decide

theorem not_regular_of_id_oldest {r : Item} (h : r.measurementId = "MEASUREMENT#oldest") :
    isRegularItem r = false := by
  rw [isRegularItem, h]
  decide

theorem tableWF_putItem {t : List Item} {it : Item} (h : tableWF t)
    (hit : isRegularItem it = true →
      it.hasAnyMetric = true ∧ it.measurement_time.isSome = true) :
    tableWF (putItem t it) := by
  intro r hr hreg
  rcases mem_putItem_subset hr with rfl | hm
  · exact hit hreg
  · exact h r hm hreg

theorem tableWF_put_sentinel {t : List Item} {it : Item} (h : tableWF t)
    (hid : isRegularItem it = false) : tableWF (putItem t it) := by
  apply tableWF_putItem h
  intro hreg
  rw [hid] at hreg
  exact Bool.noConfusion hreg

theorem tableWF_deleteItem {t : List Item} (k : String) (h : tableWF t) :
    tableWF (deleteItem t k) := by
  intro r hr hreg
  exact h r (List.mem_of_mem_filter hr) hreg

theorem exists_metric_of_not_isEmpty {md : MeasData} (h : md.isEmpty = false) :
    ∃ m, (md.get m).isSome = true := by
  cases hw : md.weight with
  | some v => exact ⟨.weight, by rw [show md.get .weight = md.weight from rfl, hw]; rfl⟩
  | none =>
    cases hh : md.height with
    | some v => exact ⟨.height, by rw [show md.get .height = md.height from rfl, hh]; rfl⟩
    | none =>
      cases hb : md.body_fat_percentage with
      | some v => exact ⟨.body_fat_percentage,
          by rw [show md.get .body_fat_percentage = md.body_fat_percentage from rfl, hb]; rfl⟩
      | none => simp [MeasData.isEmpty, hw, hh, hb] at h

theorem tableWF_recalcLatestFull {t : List Item} (h : tableWF t) :
    tableWF (recalcLatestFull t) := by
  simp only [recalcLatestFull, get_all_user_measurements]
  split
  · exact tableWF_deleteItem _ h
  · split
    · split
      · exact tableWF_put_sentinel h (not_regular_of_id_latest
          (rebuildLatestItem_measurementId _))
      · exact h
    · exact h

theorem tableWF_recalcOldestFull {t : List Item} (h : tableWF t) :
    tableWF (recalcOldestFull t) := by
  simp only [recalcOldestFull, get_all_user_measurements]
  split
  · exact tableWF_deleteItem _ h
  · split
    · split
      · exact tableWF_put_sentinel h (not_regular_of_id_oldest
          (rebuildOldestItem_measurementId _))
      · exact h
    · exact h

theorem tableWF_update_latest_record (t : List Item) (md : MeasData) (mt : String)
    (h : tableWF t) : tableWF (update_latest_record t md mt) := by
  cases hf : findByRecordType t "latest" with
  | none =>
    simp only [update_latest_record, hf]
    exact tableWF_put_sentinel h (not_regular_of_id_latest
      ((foldl_stampLast_measurementId md mt _).trans rfl))
  | some cur =>
    simp only [update_latest_record, hf]
    apply tableWF_putItem h
    intro hreg
    have hidX := foldl_applyLatest_measurementId md mt cur
    rw [isRegularItem, hidX] at hreg
    have hcreg : isRegularItem cur = true := hreg
    have hcur := h cur (findByRecordType_some hf).1 hcreg
    constructor
    · obtain ⟨m0, hm0⟩ := (hasAnyMetric_iff cur).mp hcur.1
      apply (hasAnyMetric_iff _).mpr
      refine ⟨m0, ?_⟩
      rw [foldl_applyLatest_getVal]
      by_cases hmd : (md.get m0).isSome = true
      · rw [if_pos hmd]
        exact hmd
      · rw [if_neg hmd]
        exact hm0
    · rw [foldl_applyLatest_measurement_time]
      exact hcur.2

theorem tableWF_update_oldest_record (t : List Item) (md : MeasData) (mt : String)
    (h : tableWF t) : tableWF (update_oldest_record t md mt) := by
  cases hf : findByRecordType t "oldest" with
  | none =>
    simp only [update_oldest_record, hf]
    exact tableWF_put_sentinel h (not_regular_of_id_oldest
      ((foldl_stampFirst_measurementId md mt _).trans rfl))
  | some cur =>
    simp only [update_oldest_record, hf]
    apply tableWF_putItem h
    intro hreg
    have hidX := foldl_applyOldest_measurementId md mt cur
    rw [isRegularItem, hidX] at hreg
    have hcreg : isRegularItem cur = true := hreg
    have hcur := h cur (findByRecordType_some hf).1 hcreg
    constructor
    · obtain ⟨m0, hm0⟩ := (hasAnyMetric_iff cur).mp hcur.1
      apply (hasAnyMetric_iff _).mpr
      refine ⟨m0, ?_⟩
      rw [foldl_applyOldest_getVal]
      by_cases hmd : (md.get m0).isSome = true
      · rw [if_pos hmd]
        cases hv : cur.getVal m0 with
        | none =>
          rw [hv] at hm0
          exact absurd hm0 (by simp)
        | some w =>
          simp
      · rw [if_neg hmd]
        exact hm0
    · rw [foldl_applyOldest_measurement_time]
      exact hcur.2

theorem tableWF_handle_first (t : List Item) (md : MeasData) (mt : String)
    (h : tableWF t) : tableWF (handle_first_measurement t md mt) := by
  simp only [handle_first_measurement]
  apply tableWF_put_sentinel
  · exact tableWF_put_sentinel h (not_regular_of_id_latest
      ((foldl_stampLast_measurementId md mt _).trans rfl))
  · exact not_regular_of_id_oldest ((foldl_stampFirst_measurementId md mt _).trans rfl)

theorem tableWF_update_latest_oldest (t : List Item) (md : MeasData) (mt : String)
    (h : tableWF t) : tableWF (update_latest_oldest_records t md mt) := by
  simp only [update_latest_oldest_records, get_all_user_measurements]
  split
  · exact tableWF_handle_first _ _ _ h
  · exact tableWF_update_oldest_record _ _ _ (tableWF_update_latest_record _ _ _ h)

/-- C10: the store invariant — every regular measurement record present after
any add, update or delete on a well-formed store carries at least one of the
three metrics and a `measurement_time` attribute (`tableWF`); consequently on
any well-formed store the full-recomputation paths' guard `timesOk` holds, so
they never encounter a regular record lacking `measurement_time`. -/
theorem C10_regular_records_well_formed
    (t : List Item) (pa : AddParams) (pu : UpdateParams) (pd : DeleteParams)
    (now : String) (fault : Bool) (hWF : tableWF t) :
    tableWF (add_body_measurement t pa now fault).1 ∧
    tableWF (update_body_measurement t pu fault).1 ∧
    tableWF (delete_body_measurement t pd fault).1 ∧
    (∀ u : List Item, tableWF u → timesOk (regularOf u) = true) := by
  refine ⟨?_, ?_, ?_, ?_⟩
  · -- add
    by_cases h1 : (⟨pa.weight, pa.height, pa.body_fat_percentage⟩ : MeasData).isEmpty = true
    · simp only [add_body_measurement, if_pos h1]
      exact hWF
    · by_cases h2 : validate_measurement_values ⟨pa.weight, pa.height, pa.body_fat_percentage⟩ = []
      · rw [add_body_measurement_run t pa now fault (Bool.eq_false_iff.mpr h1) h2]
        have hput : tableWF (putItem t
            { measurementId := "MEASUREMENT#" ++ effectiveTime pa now,
              weight := pa.weight, height := pa.height,
              body_fat_percentage := pa.body_fat_percentage,
              measurement_time := some (effectiveTime pa now) }) := by
          apply tableWF_putItem hWF
          intro _
          constructor
          · apply (hasAnyMetric_iff _).mpr
            obtain ⟨m, hm⟩ := exists_metric_of_not_isEmpty (Bool.eq_false_iff.mpr h1)
            refine ⟨m, ?_⟩
            cases m <;> exact hm
          · rfl
        cases fault
        · exact tableWF_update_latest_oldest _ _ _ hput
        · exact hput
      · simp only [add_body_measurement, if_neg h1, if_pos h2]
        exact hWF
  · -- update
    cases hmid : pu.measurement_id with
    | none =>
      simp only [update_body_measurement, hmid]
      exact hWF
    | some mid =>
      by_cases hne : mid = ""
      · simp only [update_body_measurement, hmid, if_pos hne]
        exact hWF
      · by_cases h1 : (⟨pu.weight, pu.height, pu.body_fat_percentage⟩ : MeasData).isEmpty = true
        · simp only [update_body_measurement, hmid, if_neg hne, if_pos h1]
          exact hWF
        · by_cases h2 : validate_measurement_values
              ⟨pu.weight, pu.height, pu.body_fat_percentage⟩ = []
          · cases hg : getItem t ("MEASUREMENT#" ++ mid) with
            | none =>
              have hnn : ¬ (validate_measurement_values
                  ⟨pu.weight, pu.height, pu.body_fat_percentage⟩ ≠ []) := fun hc => hc h2
              simp only [update_body_measurement, hmid, if_neg hne, if_neg h1,
                if_neg hnn, hg]
              exact hWF
            | some ex =>
              rw [update_body_measurement_run t pu fault mid ex hmid hne
                (Bool.eq_false_iff.mpr h1) h2 hg]
              have hg' : t.find? (fun r => r.measurementId = "MEASUREMENT#" ++ mid) =
                  some ex := hg
              have hexmem : ex ∈ t := List.mem_of_find?_eq_some hg'
              have hput : tableWF (putItem t
                  (mergeUpdate ex ⟨pu.weight, pu.height, pu.body_fat_percentage⟩)) := by
                apply tableWF_putItem hWF
                intro hreg
                rw [isRegularItem, show (mergeUpdate ex
                    ⟨pu.weight, pu.height, pu.body_fat_percentage⟩).measurementId =
                    ex.measurementId from rfl] at hreg
                have hexreg : isRegularItem ex = true := hreg
                have hex := hWF ex hexmem hexreg
                constructor
                · apply (hasAnyMetric_iff _).mpr
                  obtain ⟨m, hm⟩ := exists_metric_of_not_isEmpty (Bool.eq_false_iff.mpr h1)
                  refine ⟨m, ?_⟩
                  rw [mergeUpdate_getVal]
                  cases hv : (⟨pu.weight, pu.height, pu.body_fat_percentage⟩ : MeasData).get m with
                  | none =>
                    rw [hv] at hm
                    exact absurd hm (by simp)
                  | some v =>
                    rfl
                · show (mergeUpdate ex
                    ⟨pu.weight, pu.height, pu.body_fat_percentage⟩).measurement_time.isSome = true
                  rw [show (mergeUpdate ex
                    ⟨pu.weight, pu.height, pu.body_fat_percentage⟩).measurement_time =
                    ex.measurement_time from rfl]
                  exact hex.2
              cases fault
              · exact tableWF_recalcLatestFull hput
              · exact hput
          · simp only [update_body_measurement, hmid, if_neg hne, if_neg h1, if_pos h2]
            exact hWF
  · -- delete
    cases hmid : pd.measurement_id with
    | none =>
      simp only [delete_body_measurement, hmid]
      exact hWF
    | some mid =>
      by_cases hne : mid = ""
      · simp only [delete_body_measurement, hmid, if_pos hne]
        exact hWF
      · cases hg : getItem t ("MEASUREMENT#" ++ mid) with
        | none =>
          simp only [delete_body_measurement, hmid, if_neg hne, hg]
          exact hWF
        | some ex =>
          rw [delete_body_measurement_run t pd fault mid ex hmid hne hg]
          have hdel : tableWF (deleteItem t ("MEASUREMENT#" ++ mid)) :=
            tableWF_deleteItem _ hWF
          cases fault
          · exact tableWF_recalcOldestFull (tableWF_recalcLatestFull hdel)
          · exact hdel
  · -- the guard of the recomputation paths under the invariant
    intro u hu
    apply List.all_eq_true.mpr
    intro r hr
    have hr' := List.mem_filter.mp hr
    have htime := (hu r hr'.1 hr'.2).2
    simp [htime]

theorem C10_regular_records_well_formed_witness :
    tableWF [({ measurementId := "MEASUREMENT#2024-01-01", weight := some 60, measurement_time := some "2024-01-01" } : Item)] ∧
    (tableWF (add_body_measurement [({ measurementId := "MEASUREMENT#2024-01-01", weight := some 60, measurement_time := some "2024-01-01" } : Item)] { weight := some 70 } "2024-02-01" false).1 ∧
     tableWF (update_body_measurement [({ measurementId := "MEASUREMENT#2024-01-01", weight := some 60, measurement_time := some "2024-01-01" } : Item)] { measurement_id := some "2024-01-01", height := some 170 } false).1 ∧
     tableWF (delete_body_measurement [({ measurementId := "MEASUREMENT#2024-01-01", weight := some 60, measurement_time := some "2024-01-01" } : Item)] { measurement_id := some "2024-01-01" } false).1 ∧
     (∀ u : List Item, tableWF u → timesOk (regularOf u) = true)) :=
  ⟨by unfold tableWF; decide,
   C10_regular_records_well_formed
     [({ measurementId := "MEASUREMENT#2024-01-01", weight := some 60, measurement_time := some "2024-01-01" } : Item)]
     { weight := some 70 } { measurement_id := some "2024-01-01", height := some 170 }
     { measurement_id := some "2024-01-01" } "2024-02-01" false
     (by unfold tableWF; decide)⟩
